import Mathlib

/-!
Shallow embedding of `crates/runtime/src/model/chat.rs` (spiceai): the
provider-dispatch constructor functions (`openai`, `azure`, `huggingface`)
and the `ChatWrapper` decorator (request preparation pipeline and the
instrumented `chat_request` / `chat_stream` execution paths).

Modelling conventions:
* `Option` stands for Rust `Option`; `Except` for `Result`.
* Secret strings (`SecretString`) are plain `String`s; `expose_secret` is the
  identity.
* The parameter `HashMap<String, SecretString>` is an association list with
  unique keys; `getParam` is `HashMap::get`.
* `serde_json::Value` is the inductive `Json`.  Rust floating point numbers
  (`f32`/`f64`) are idealised as exact rationals `ℚ`; rounding/underflow of
  `f64` parsing and the distinction between JSON integers and floats are not
  modelled.
* External constructors (`new_openai_client`, `new_azure_client`,
  `create_hf_w_gguf`, `create_hf_model`) are modelled as records/routes that
  capture exactly the arguments the dispatch code passes to them.
* `tracing` log lines and `handle_metrics` calls are modelled as an explicit
  list of `TelemetryEvent`s emitted by a call, in program order.  Wall-clock
  durations are not modelled.
* The inner `Box<dyn Chat>` adapter is a function argument of the execution
  models; a stream is modelled as the list of items it yields.
-/

/-- Rust `Option::or_else` (the closure is pure in all uses here): keep `a`
if set, otherwise use `b`. -/
def optOr {α : Type} (a b : Option α) : Option α :=
  match a with
  | some x => some x
  | none => b

/-- Parameter map `HashMap<String, SecretString>`, as an association list. -/
abbrev Params := List (String × String)

/-- Model of `params.get(key)` (with `expose_secret`), i.e. the
`extract_secret!` macro: first binding of the key, if any. -/
def getParam (p : Params) (k : String) : Option String :=
  (p.find? (fun kv => kv.1 == k)).map Prod.snd

/-- Remove every binding of a key from a parameter map (used to state that a
parameter is only consulted, never forwarded). -/
def removeParam (p : Params) (k : String) : Params :=
  p.filter (fun kv => !(kv.1 == k))

/-- Model of `serde_json::Value`.  Numbers are idealised as exact rationals. -/
inductive Json where
  | null
  | bool (b : Bool)
  | num (q : ℚ)
  | str (s : String)
  | arr (xs : List Json)
  | obj (kvs : List (String × Json))

/-- Deserialisation of a JSON value into a boolean (`serde_json::from_value`
for `bool` fields). -/
def decodeBool (v : Json) : Option Bool :=
  match v with
  | .bool b => some b
  | _ => none

/-- Deserialisation into a float field (`f32`); exact-rational idealisation. -/
def decodeNum (v : Json) : Option ℚ :=
  match v with
  | .num q => some q
  | _ => none

/-- Deserialisation into a `u8` field: integral and in range. -/
def decodeU8 (v : Json) : Option Nat :=
  match v with
  | .num q => if q.den = 1 ∧ 0 ≤ q.num ∧ q.num ≤ 255 then some q.num.toNat else none
  | _ => none

/-- Deserialisation into a `u32` field: integral and in range. -/
def decodeU32 (v : Json) : Option Nat :=
  match v with
  | .num q => if q.den = 1 ∧ 0 ≤ q.num ∧ q.num ≤ 4294967295 then some q.num.toNat else none
  | _ => none

/-- Deserialisation into an `i64` field: integral and in range. -/
def decodeI64 (v : Json) : Option Int :=
  match v with
  | .num q =>
    if q.den = 1 ∧ -9223372036854775808 ≤ q.num ∧ q.num ≤ 9223372036854775807 then
      some q.num
    else none
  | _ => none

/-- Deserialisation into a `String` field. -/
def decodeStr (v : Json) : Option String :=
  match v with
  | .str s => some s
  | _ => none

/-- Deserialisation into `HashMap<String, Value>` (the `logit_bias` field):
any JSON object; kept as raw JSON. -/
def decodeObj (v : Json) : Option Json :=
  match v with
  | .obj _ => some v
  | _ => none

/-- Deserialisation into `serde_json::Value` itself (the `metadata` field):
always succeeds. -/
def decodeAny (v : Json) : Option Json :=
  some v

/-- Deserialisation into `Stop` (a string or an array of strings); kept as
raw JSON. -/
def decodeStop (v : Json) : Option Json :=
  match v with
  | .str _ => some v
  | .arr xs =>
    if xs.all (fun j => match j with | .str _ => true | _ => false) then some v else none
  | _ => none

/-- Deserialisation into `Vec<ChatCompletionTool>`: an array of objects (the
shape of each tool object is not further validated here); kept as raw JSON. -/
def decodeTools (v : Json) : Option Json :=
  match v with
  | .arr xs =>
    if xs.all (fun j => match j with | .obj _ => true | _ => false) then some v else none
  | _ => none

/-- Deserialisation into `ChatCompletionToolChoiceOption`: one of the literal
strings, or a named-tool object (shape not further validated); raw JSON. -/
def decodeToolChoice (v : Json) : Option Json :=
  match v with
  | .str s => if s = "none" ∨ s = "auto" ∨ s = "required" then some v else none
  | .obj _ => some v
  | _ => none

/-- Deserialisation into `ResponseFormat`: a tagged object whose `type` is one
of the recognised tags (payload not further validated); kept as raw JSON. -/
def decodeResponseFormat (v : Json) : Option Json :=
  match v with
  | .obj kvs =>
    match (kvs.find? (fun kv => kv.1 == "type")).map Prod.snd with
    | some (.str t) =>
      if t = "text" ∨ t = "json_object" ∨ t = "json_schema" then some v else none
    | _ => none
  | _ => none

/-- Model of `async_openai::types::ChatCompletionStreamOptions` (it has the
single field `include_usage`). -/
structure ChatCompletionStreamOptions where
  include_usage : Bool
deriving DecidableEq, Repr

/-- Deserialisation into `ChatCompletionStreamOptions`: an object with a
boolean `include_usage` field. -/
def decodeStreamOptions (v : Json) : Option ChatCompletionStreamOptions :=
  match v with
  | .obj kvs =>
    match (kvs.find? (fun kv => kv.1 == "include_usage")).map Prod.snd with
    | some (.bool b) => some { include_usage := b }
    | _ => none
  | _ => none

/-- Model of `async_openai::types::ChatCompletionRequestMessage`; message
payloads are reduced to their content string. -/
inductive ChatCompletionRequestMessage where
  | system (content : String)
  | user (content : String)
  | assistant (content : String)
  | tool (content : String)
  | function (content : String)
deriving DecidableEq, Repr

/-- Model of `async_openai::types::CreateChatCompletionRequest`, restricted to
the fields `chat.rs` reads or writes.  Scalar option fields carry their typed
values; structurally rich option fields carry raw JSON. -/
structure CreateChatCompletionRequest where
  messages : List ChatCompletionRequestMessage
  model : String
  frequency_penalty : Option ℚ := none
  logit_bias : Option Json := none
  logprobs : Option Bool := none
  top_logprobs : Option Nat := none
  max_completion_tokens : Option Nat := none
  store : Option Bool := none
  metadata : Option Json := none
  n : Option Nat := none
  presence_penalty : Option ℚ := none
  response_format : Option Json := none
  seed : Option Int := none
  stop : Option Json := none
  stream : Option Bool := none
  stream_options : Option ChatCompletionStreamOptions := none
  temperature : Option ℚ := none
  top_p : Option ℚ := none
  tools : Option Json := none
  tool_choice : Option Json := none
  parallel_tool_calls : Option Bool := none
  user : Option String := none

/-- Token usage record (`CompletionUsage`). -/
structure Usage where
  prompt_tokens : Nat
  completion_tokens : Nat
  total_tokens : Nat
deriving DecidableEq, Repr

/-- Model of `CreateChatCompletionResponse`, restricted to the fields the
wrapper touches; each choice is reduced to its message content. -/
structure CreateChatCompletionResponse where
  model : String
  usage : Option Usage := none
  choices : List String := []
deriving DecidableEq, Repr

/-- Model of one stream chunk (`CreateChatCompletionStreamResponse`),
restricted to the fields the wrapper touches. -/
structure CreateChatCompletionStreamResponse where
  model : String
  usage : Option Usage := none
deriving DecidableEq, Repr

/-- Opaque model of `async_openai::error::OpenAIError` values produced by the
inner adapter. -/
structure OpenAIError where
  msg : String
deriving DecidableEq, Repr

/-- Model of `llms::chat::Error`, as used by the dispatch functions. -/
inductive LlmError where
  | UnknownModelSource (from_ : String)
  | UnsupportedTaskForModel (from_ : String) (task : String)
  | FailedToLoadModel (source : String)
  | InvalidParamError (param : String) (message : String)
deriving DecidableEq, Repr

/-- Model of `spicepod::component::model::ModelFileType`. -/
inductive ModelFileType where
  | Weights
  | Tokenizer
  | TokenizerConfig
  | Config
deriving DecidableEq, Repr

/-- Minimal model of `spicepod::component::model::Model` (external to the
given sources): its name and its typed file references, which is all the
dispatch code reads. -/
structure Model where
  name : String
  files : List (ModelFileType × String)

/-- Model of `Model::find_all_file_path`: every path declared with the given
file type, in declaration order. -/
def Model.find_all_file_path (m : Model) (t : ModelFileType) : List String :=
  (m.files.filter (fun f => f.1 == t)).map Prod.snd

/-- ASCII lower-casing of one character (`u8::to_ascii_lowercase`). -/
def toLowerAscii (c : Char) : Char :=
  if 'A' ≤ c ∧ c ≤ 'Z' then Char.ofNat (c.toNat + 32) else c

/-- Model of `str::eq_ignore_ascii_case`. -/
def eqIgnoreAsciiCase (a b : String) : Bool :=
  a.toList.map toLowerAscii == b.toList.map toLowerAscii

/-- Structural split of a character list at a separator (the always-nonempty
result of `str::split`, built by recursion so that it evaluates in the
kernel). -/
def splitOnChar (sep : Char) : List Char → List (List Char)
  | [] => [[]]
  | c :: rest =>
    match splitOnChar sep rest with
    | [] => [[]]
    | cur :: parts => if c = sep then [] :: cur :: parts else (c :: cur) :: parts

/-- Model of `Path::file_name` on a Unix-style path string: the last path
component, with empty and current-directory components ignored; `none` for an
empty path or a path ending in a parent-directory component. -/
def fileName (p : String) : Option (List Char) :=
  let comps := (splitOnChar '/' p.toList).filter
    (fun c => !(c.isEmpty) && !(c == ['.']))
  match comps.getLast? with
  | some c => if c = ['.', '.'] then none else some c
  | none => none

/-- Model of `Path::extension`: the portion of the file name after the last
dot; `none` when there is no dot or when the only dot is the leading dot of a
hidden file. -/
def pathExtension (p : String) : Option String :=
  match fileName p with
  | none => none
  | some f =>
    let parts := splitOnChar '.' f
    match parts with
    | [] => none
    | [_] => none
    | first :: rest =>
      if first = [] ∧ rest.length = 1 then none
      else parts.getLast?.map (fun cs => String.mk cs)

/-- Does a weights path carry a (case-insensitive) `gguf` extension?  This is
the test inside the `find_map` closure of `huggingface`. -/
def hasGgufExt (p : String) : Bool :=
  match pathExtension p with
  | some ext => eqIgnoreAsciiCase ext "gguf"
  | none => false

/-- The `find_map` over weights paths in `huggingface`: first path whose
extension case-insensitively equals `gguf` (returned unchanged, as
`PathBuf::from_str` is the identity embedding here). -/
def findGgufPath (weights : List String) : Option String :=
  weights.findSome? (fun p => if hasGgufExt p then some p else none)

/-- Result classification of Rust `f64::from_str`. -/
inductive ParsedF64 where
  | finite (q : ℚ)
  | posInf
  | negInf
  | nan
deriving DecidableEq, Repr

/-- Numeric value of a run of ASCII digits. -/
def digitsToNat (ds : List Char) : Nat :=
  ds.foldl (fun a c => a * 10 + (c.toNat - 48)) 0

/-- Is a character an ASCII digit? -/
def isAsciiDigit (c : Char) : Bool :=
  '0' ≤ c && c ≤ '9'

/-- Rational value of a parsed decimal literal `[-] intDs . fracDs e [-] expMag`
(exact arithmetic; `f64` rounding and underflow are not modelled).  Built with
`mkRat` over integer mantissa and power-of-ten denominator, which is the exact
value `(intDs.fracDs) * 10 ^ (± expMag)` with the sign applied. -/
def decimalValue (neg : Bool) (intDs fracDs : List Char) (expNeg : Bool)
    (expMag : Nat) : ℚ :=
  let mantissa : Int := (digitsToNat intDs * 10 ^ fracDs.length + digitsToNat fracDs : Nat)
  let m : Int := if neg then -mantissa else mantissa
  if expNeg then mkRat m (10 ^ fracDs.length * 10 ^ expMag)
  else mkRat (m * 10 ^ expMag) (10 ^ fracDs.length)

/-- Parse the number part of a float literal (after the optional sign):
`Digits '.'? Digits? Exp?` or `'.' Digits Exp?` with
`Exp ::= ('e'|'E') Sign? Digits`, per the grammar of Rust `f64::from_str`. -/
def parseDecimal (neg : Bool) (cs : List Char) : Option ParsedF64 :=
  let intSpan := cs.span isAsciiDigit
  let intDs := intSpan.1
  let afterInt := intSpan.2
  let fracSpan :=
    match afterInt with
    | '.' :: r => (r.span isAsciiDigit)
    | _ => ([], afterInt)
  let fracDs := fracSpan.1
  let afterFrac := fracSpan.2
  if intDs.isEmpty ∧ fracDs.isEmpty then none
  else
    match afterFrac with
    | [] => some (.finite (decimalValue neg intDs fracDs false 0))
    | e :: r =>
      if e = 'e' ∨ e = 'E' then
        let signRest : Bool × List Char :=
          match r with
          | '+' :: rr => (false, rr)
          | '-' :: rr => (true, rr)
          | _ => (false, r)
        let expSpan := signRest.2.span isAsciiDigit
        if expSpan.1.isEmpty ∨ !expSpan.2.isEmpty then none
        else
          some (.finite (decimalValue neg intDs fracDs signRest.1 (digitsToNat expSpan.1)))
      else none

/-- Model of Rust `f64::from_str`: optional sign, then a case-insensitive
infinity/NaN keyword or a decimal literal.  Finite values are exact
rationals. -/
def parseF64 (s : String) : Option ParsedF64 :=
  let cs := s.toList
  let signRest : Bool × List Char :=
    match cs with
    | '+' :: rest => (false, rest)
    | '-' :: rest => (true, rest)
    | _ => (false, cs)
  let neg := signRest.1
  let body := signRest.2
  let lower := body.map toLowerAscii
  if lower = "inf".toList ∨ lower = "infinity".toList then
    some (if neg then .negInf else .posInf)
  else if lower = "nan".toList then some .nan
  else parseDecimal neg body

/-- Rust `t < 0.0` on a parsed `f64` value: negative infinity and negative
finite values only (`NaN < 0.0` is false). -/
def parsedIsNeg (t : ParsedF64) : Bool :=
  match t with
  | .finite q => decide (q < 0)
  | .negInf => true
  | .posInf => false
  | .nan => false

/-- External constant `llms::openai::DEFAULT_LLM_MODEL` (declared outside the
given sources; its concrete value is immaterial to every claim below). -/
def DEFAULT_LLM_MODEL : String := "gpt-4o-mini"

/-- Arguments the dispatch code passes to the external constructor
`llms::openai::new_openai_client`; the constructed adapter is modelled as the
record of those arguments. -/
structure OpenAIClientConfig where
  model_id : String
  api_base : Option String
  api_key : Option String
  org_id : Option String
  project_id : Option String
deriving DecidableEq, Repr

/-- Model of the `openai` dispatch function of `chat.rs`: validate the
optional `openai_temperature` override (the parsed value is only checked,
never forwarded), then build the client from the remaining parameters. -/
def openai (model_id : Option String) (params : Params) :
    Except LlmError OpenAIClientConfig :=
  let api_base := getParam params "endpoint"
  let api_key := getParam params "openai_api_key"
  let org_id := getParam params "openai_org_id"
  let project_id := getParam params "openai_project_id"
  let client : Except LlmError OpenAIClientConfig :=
    .ok { model_id := model_id.getD DEFAULT_LLM_MODEL
          api_base := api_base
          api_key := api_key
          org_id := org_id
          project_id := project_id }
  match getParam params "openai_temperature" with
  | some temperature_str =>
    match parseF64 temperature_str with
    | some temperature =>
      if parsedIsNeg temperature then
        .error (.InvalidParamError "openai_temperature" "Ensure it is a non-negative number.")
      else client
    | none =>
      .error (.InvalidParamError "openai_temperature" "Ensure it is a non-negative number.")
  | none => client

/-- Error text of `azure` when the model id is missing (`model_name` here is
the component name). -/
def azureMissingIdMsg (model_name : String) : String :=
  "Azure model '" ++ model_name ++ "' requires a model ID in the format `from:azure:<model_id>`. See https://spiceai.org/docs/components/models/azure for details."

/-- Error text of `azure` when the `endpoint` parameter is missing. -/
def azureMissingEndpointMsg (model_name : String) : String :=
  "Azure model '" ++ model_name ++ "' requires the 'endpoint' parameter. See https://spiceai.org/docs/components/models/azure for details."

/-- Error text of `azure` when both auth parameters are present. -/
def azureBothAuthMsg (model_name : String) : String :=
  "Azure model '" ++ model_name ++ "' allows only one of 'azure_api_key' or 'azure_entra_token'. See https://spiceai.org/docs/components/models/azure for details."

/-- Error text of `azure` when neither auth parameter is present. -/
def azureNoAuthMsg (model_name : String) : String :=
  "Azure model '" ++ model_name ++ "' requires either 'azure_api_key' or 'azure_entra_token'. See https://spiceai.org/docs/components/models/azure for details."

/-- Arguments the dispatch code passes to the external constructor
`llms::openai::new_azure_client`, in source order. -/
structure AzureClientConfig where
  model_name : String
  api_base : Option String
  api_version : Option String
  deployment_name : Option String
  entra_token : Option String
  api_key : Option String
deriving DecidableEq, Repr

/-- Model of the `azure` dispatch function of `chat.rs`.  Note that in the
source the `model_id` shadows the outer `model_name` binding after the first
check, so all later error texts name the model id. -/
def azure (model_id : Option String) (model_name : String) (params : Params) :
    Except LlmError AzureClientConfig :=
  match model_id with
  | none => .error (.FailedToLoadModel (azureMissingIdMsg model_name))
  | some m =>
    let api_base := getParam params "endpoint"
    let api_version := getParam params "azure_api_version"
    let deployment_name := getParam params "azure_deployment_name"
    let api_key := getParam params "azure_api_key"
    let entra_token := getParam params "azure_entra_token"
    if api_base = none then
      .error (.FailedToLoadModel (azureMissingEndpointMsg m))
    else if api_key.isSome ∧ entra_token.isSome then
      .error (.FailedToLoadModel (azureBothAuthMsg m))
    else if api_key = none ∧ entra_token = none then
      .error (.FailedToLoadModel (azureNoAuthMsg m))
    else
      .ok { model_name := m
            api_base := api_base
            api_version := api_version
            deployment_name := deployment_name
            entra_token := entra_token
            api_key := api_key }

/-- The two load routes of `huggingface`: the external loaders
`create_hf_w_gguf` and `create_hf_model`, modelled as the arguments the
dispatch code hands them. -/
inductive HFLoadRoute where
  | gguf (model_id : String) (path : String) (hf_token : Option String)
  | hub (model_id : String) (model_type : Option String) (hf_token : Option String)
deriving DecidableEq, Repr

/-- Model of the `huggingface` dispatch function of `chat.rs`: require a
model id, then route on whether some weights path carries a `gguf`
extension. -/
def huggingface (model_id : Option String) (component : Model) (params : Params) :
    Except LlmError HFLoadRoute :=
  match model_id with
  | none => .error (.FailedToLoadModel "No model id for Huggingface model")
  | some id =>
    let model_type := getParam params "model_type"
    let hf_token := getParam params "hf_token"
    match findGgufPath (component.find_all_file_path .Weights) with
    | some path => .ok (.gguf id path hf_token)
    | none => .ok (.hub id model_type hf_token)

/-- Model of `ChatWrapper`: public display name, optional system prompt and
list of default parameters.  The inner `Box<dyn Chat>` adapter is supplied as
a function argument of the execution models below. -/
structure ChatWrapper where
  public_name : String
  system_prompt : Option String
  defaults : List (String × Json)

/-- Model of `ChatWrapper::with_system_prompt`: insert a system-role message
at position 0 when a prompt is configured.  The message builder in the source
has its mandatory `content` field set, so it cannot fail; the `Except` result
type is kept from the source signature. -/
def ChatWrapper.with_system_prompt (w : ChatWrapper) (req : CreateChatCompletionRequest) :
    Except OpenAIError CreateChatCompletionRequest :=
  match w.system_prompt with
  | some prompt => .ok { req with messages := .system prompt :: req.messages }
  | none => .ok req

/-- Model of `ChatWrapper::with_stream_usage`: on a streaming request
(`req.stream.is_some_and(|s| s)`), force `include_usage` in the stream
options, merging into an existing options value and creating one otherwise. -/
def with_stream_usage (req : CreateChatCompletionRequest) : CreateChatCompletionRequest :=
  if req.stream = some true then
    { req with stream_options :=
        match req.stream_options with
        | some opts => some { opts with include_usage := true }
        | none => some { include_usage := true } }
  else req

/-- One iteration of the `for (key, v) in &self.defaults` loop of
`ChatWrapper::with_model_defaults`: the string `match` is rendered as the
equivalent sequential equality tests; each recognised arm backfills its field
only when currently unset (`Option::or_else` with the deserialised value);
unknown keys fall through to the trace-and-ignore arm. -/
def applyDefault (req : CreateChatCompletionRequest) (kv : String × Json) :
    CreateChatCompletionRequest :=
  if kv.1 = "frequency_penalty" then
    { req with frequency_penalty := optOr req.frequency_penalty (decodeNum kv.2) }
  else if kv.1 = "logit_bias" then
    { req with logit_bias := optOr req.logit_bias (decodeObj kv.2) }
  else if kv.1 = "logprobs" then
    { req with logprobs := optOr req.logprobs (decodeBool kv.2) }
  else if kv.1 = "top_logprobs" then
    { req with top_logprobs := optOr req.top_logprobs (decodeU8 kv.2) }
  else if kv.1 = "max_completion_tokens" then
    { req with max_completion_tokens := optOr req.max_completion_tokens (decodeU32 kv.2) }
  else if kv.1 = "store" then
    { req with store := optOr req.store (decodeBool kv.2) }
  else if kv.1 = "metadata" then
    { req with metadata := optOr req.metadata (decodeAny kv.2) }
  else if kv.1 = "n" then
    { req with n := optOr req.n (decodeU8 kv.2) }
  else if kv.1 = "presence_penalty" then
    { req with presence_penalty := optOr req.presence_penalty (decodeNum kv.2) }
  else if kv.1 = "response_format" then
    { req with response_format := optOr req.response_format (decodeResponseFormat kv.2) }
  else if kv.1 = "seed" then
    { req with seed := optOr req.seed (decodeI64 kv.2) }
  else if kv.1 = "stop" then
    { req with stop := optOr req.stop (decodeStop kv.2) }
  else if kv.1 = "stream" then
    { req with stream := optOr req.stream (decodeBool kv.2) }
  else if kv.1 = "stream_options" then
    { req with stream_options := optOr req.stream_options (decodeStreamOptions kv.2) }
  else if kv.1 = "temperature" then
    { req with temperature := optOr req.temperature (decodeNum kv.2) }
  else if kv.1 = "top_p" then
    { req with top_p := optOr req.top_p (decodeNum kv.2) }
  else if kv.1 = "tools" then
    { req with tools := optOr req.tools (decodeTools kv.2) }
  else if kv.1 = "tool_choice" then
    { req with tool_choice := optOr req.tool_choice (decodeToolChoice kv.2) }
  else if kv.1 = "parallel_tool_calls" then
    { req with parallel_tool_calls := optOr req.parallel_tool_calls (decodeBool kv.2) }
  else if kv.1 = "user" then
    { req with user := optOr req.user (decodeStr kv.2) }
  else req

/-- Model of `ChatWrapper::with_model_defaults`: fold the loop body over the
defaults list in order. -/
def ChatWrapper.with_model_defaults (w : ChatWrapper) (req : CreateChatCompletionRequest) :
    CreateChatCompletionRequest :=
  w.defaults.foldl applyDefault req

/-- Model of `ChatWrapper::prepare_req`: system-prompt injection, then
default backfill, then streaming-usage enforcement, in source order. -/
def ChatWrapper.prepare_req (w : ChatWrapper) (req : CreateChatCompletionRequest) :
    Except OpenAIError CreateChatCompletionRequest :=
  match w.with_system_prompt req with
  | .error e => .error e
  | .ok r => .ok (with_stream_usage (w.with_model_defaults r))

/-- Modelled from the spec: `TelemetryLabels` is a derived, read-only view of
request fields used to bucket metrics; the `request_labels` helper lives in
`super::metrics`, outside the given sources. -/
structure RequestLabels where
  model : String
  stream : Option Bool
deriving DecidableEq, Repr

/-- Model of `request_labels(&req)` on a prepared request. -/
def request_labels (req : CreateChatCompletionRequest) : RequestLabels :=
  { model := req.model, stream := req.stream }

/-- Observable telemetry and metrics actions of one wrapper call, in program
order: the `task_history` log lines and the `handle_metrics` records
(durations are not modelled). -/
inductive TelemetryEvent where
  | metadataLog (metadata : Json)
  | usageLog (usage : Usage)
  | capturedOutput (output : List String)
  | errorLog
  | metricsRecord (is_error : Bool) (labels : RequestLabels)

/-- The conditional metadata log line of the execution paths. -/
def metadataEvents (m : Option Json) : List TelemetryEvent :=
  match m with
  | some j => [.metadataLog j]
  | none => []

/-- Model of `ChatWrapper::chat_request`: prepare the request, call the inner
adapter on it; on success log usage (when present) and the captured output and
rewrite the reported model to the public name; on failure log the error; in
both cases record metrics with the error flag of the result. -/
def ChatWrapper.chat_request (w : ChatWrapper)
    (inner : CreateChatCompletionRequest → Except OpenAIError CreateChatCompletionResponse)
    (req : CreateChatCompletionRequest) :
    Except OpenAIError CreateChatCompletionResponse × List TelemetryEvent :=
  match w.prepare_req req with
  | .error e => (.error e, [])
  | .ok prepared =>
    let labels := request_labels prepared
    let metaEvents := metadataEvents prepared.metadata
    match inner prepared with
    | .ok resp =>
      let usageEvents : List TelemetryEvent :=
        match resp.usage with
        | some u => [.usageLog u]
        | none => []
      (.ok { resp with model := w.public_name },
        metaEvents ++ usageEvents ++ [.capturedOutput resp.choices, .metricsRecord false labels])
    | .error e => (.error e, metaEvents ++ [.errorLog, .metricsRecord true labels])

/-- The per-chunk model rewrite of the stream path (`map_ok` closure). -/
def rewriteChunk (public_name : String) (c : CreateChatCompletionStreamResponse) :
    CreateChatCompletionStreamResponse :=
  { c with model := public_name }

/-- The per-item `inspect` closure of the stream path: an `Ok` chunk carrying
usage fires the usage log line and a success metrics record; all other items
fire nothing. -/
def streamItemEvents (labels : RequestLabels)
    (it : Except OpenAIError CreateChatCompletionStreamResponse) : List TelemetryEvent :=
  match it with
  | .ok c =>
    match c.usage with
    | some u => [.usageLog u, .metricsRecord false labels]
    | none => []
  | .error _ => []

/-- Model of `ChatWrapper::chat_stream`: prepare the request, open the inner
stream; on success forward the items with the model field of each `Ok` chunk
rewritten to the public name, the events being those of the `inspect` closure
in stream order; on failure to open, log the error and record a failure
metric.  The stream is modelled as the list of items it yields. -/
def ChatWrapper.chat_stream (w : ChatWrapper)
    (inner : CreateChatCompletionRequest →
      Except OpenAIError (List (Except OpenAIError CreateChatCompletionStreamResponse)))
    (req : CreateChatCompletionRequest) :
    Except OpenAIError (List (Except OpenAIError CreateChatCompletionStreamResponse))
      × List TelemetryEvent :=
  match w.prepare_req req with
  | .error e => (.error e, [])
  | .ok prepared =>
    let labels := request_labels prepared
    let metaEvents := metadataEvents prepared.metadata
    match inner prepared with
    | .ok items =>
      let out := items.map (fun it => it.map (rewriteChunk w.public_name))
      (.ok out, metaEvents ++ out.flatMap (streamItemEvents labels))
    | .error e => (.error e, metaEvents ++ [.errorLog, .metricsRecord true labels])

/-- First successful deserialisation among the defaults bound to a given
field key, in list order (the value the `or_else` chain of the loop leaves in
an initially unset field). -/
def firstDef {α : Type} (f : String) (dec : Json → Option α) :
    List (String × Json) → Option α
  | [] => none
  | kv :: rest => optOr (if kv.1 = f then dec kv.2 else none) (firstDef f dec rest)

/-- The field names the `with_model_defaults` match recognises, in source
order. -/
def recognizedDefaultKeys : List String :=
  ["frequency_penalty", "logit_bias", "logprobs", "top_logprobs",
   "max_completion_tokens", "store", "metadata", "n", "presence_penalty",
   "response_format", "seed", "stop", "stream", "stream_options",
   "temperature", "top_p", "tools", "tool_choice", "parallel_tool_calls",
   "user"]

/-- Backfill contract of one default pair `(k, v)` between an input request
and the request after `with_model_defaults`: the field selected by `k` equals
the caller's value when set, and otherwise the deserialised default; keys
outside the recognised set impose nothing. -/
def defaultBackfilled (k : String) (v : Json)
    (req r : CreateChatCompletionRequest) : Prop :=
  if k = "frequency_penalty" then r.frequency_penalty = optOr req.frequency_penalty (decodeNum v)
  else if k = "logit_bias" then r.logit_bias = optOr req.logit_bias (decodeObj v)
  else if k = "logprobs" then r.logprobs = optOr req.logprobs (decodeBool v)
  else if k = "top_logprobs" then r.top_logprobs = optOr req.top_logprobs (decodeU8 v)
  else if k = "max_completion_tokens" then
    r.max_completion_tokens = optOr req.max_completion_tokens (decodeU32 v)
  else if k = "store" then r.store = optOr req.store (decodeBool v)
  else if k = "metadata" then r.metadata = optOr req.metadata (decodeAny v)
  else if k = "n" then r.n = optOr req.n (decodeU8 v)
  else if k = "presence_penalty" then
    r.presence_penalty = optOr req.presence_penalty (decodeNum v)
  else if k = "response_format" then
    r.response_format = optOr req.response_format (decodeResponseFormat v)
  else if k = "seed" then r.seed = optOr req.seed (decodeI64 v)
  else if k = "stop" then r.stop = optOr req.stop (decodeStop v)
  else if k = "stream" then r.stream = optOr req.stream (decodeBool v)
  else if k = "stream_options" then
    r.stream_options = optOr req.stream_options (decodeStreamOptions v)
  else if k = "temperature" then r.temperature = optOr req.temperature (decodeNum v)
  else if k = "top_p" then r.top_p = optOr req.top_p (decodeNum v)
  else if k = "tools" then r.tools = optOr req.tools (decodeTools v)
  else if k = "tool_choice" then r.tool_choice = optOr req.tool_choice (decodeToolChoice v)
  else if k = "parallel_tool_calls" then
    r.parallel_tool_calls = optOr req.parallel_tool_calls (decodeBool v)
  else if k = "user" then r.user = optOr req.user (decodeStr v)
  else True

/-- A string mentions another when the latter occurs verbatim inside it. -/
def mentions (s sub : String) : Prop :=
  ∃ a b, s = a ++ sub ++ b

/-- Is an event a `handle_metrics` record? -/
def isMetricsEvent : TelemetryEvent → Bool
  | .metricsRecord _ _ => true
  | _ => false

/-- Is an event the usage log line? -/
def isUsageLogEvent : TelemetryEvent → Bool
  | .usageLog _ => true
  | _ => false

/-- The usage record a stream item carries, if any. -/
def itemUsage (it : Except OpenAIError CreateChatCompletionStreamResponse) : Option Usage :=
  match it with
  | .ok c => c.usage
  | .error _ => none

/-- The pure effect of `with_system_prompt` (whose builder cannot fail):
prepend the configured system message, if any. -/
def sysApply (w : ChatWrapper) (req : CreateChatCompletionRequest) :
    CreateChatCompletionRequest :=
  match w.system_prompt with
  | some prompt => { req with messages := .system prompt :: req.messages }
  | none => req

/-- The pure value produced by `prepare_req` (which never errors): injection,
then backfill, then streaming-usage enforcement. -/
def preparePure (w : ChatWrapper) (req : CreateChatCompletionRequest) :
    CreateChatCompletionRequest :=
  with_stream_usage (w.with_model_defaults (sysApply w req))

/-- Field-parallel rendering of one loop iteration: since the match arms of
`with_model_defaults` are mutually exclusive and each touches only its own
field, the iteration equals this simultaneous per-field conditional update
(the equality with `applyDefault` is proved below). -/
def applyDefaultP (req : CreateChatCompletionRequest) (kv : String × Json) :
    CreateChatCompletionRequest :=
  { req with
    frequency_penalty :=
      if kv.1 = "frequency_penalty" then optOr req.frequency_penalty (decodeNum kv.2)
      else req.frequency_penalty
    logit_bias :=
      if kv.1 = "logit_bias" then optOr req.logit_bias (decodeObj kv.2) else req.logit_bias
    logprobs :=
      if kv.1 = "logprobs" then optOr req.logprobs (decodeBool kv.2) else req.logprobs
    top_logprobs :=
      if kv.1 = "top_logprobs" then optOr req.top_logprobs (decodeU8 kv.2) else req.top_logprobs
    max_completion_tokens :=
      if kv.1 = "max_completion_tokens" then optOr req.max_completion_tokens (decodeU32 kv.2)
      else req.max_completion_tokens
    store := if kv.1 = "store" then optOr req.store (decodeBool kv.2) else req.store
    metadata := if kv.1 = "metadata" then optOr req.metadata (decodeAny kv.2) else req.metadata
    n := if kv.1 = "n" then optOr req.n (decodeU8 kv.2) else req.n
    presence_penalty :=
      if kv.1 = "presence_penalty" then optOr req.presence_penalty (decodeNum kv.2)
      else req.presence_penalty
    response_format :=
      if kv.1 = "response_format" then optOr req.response_format (decodeResponseFormat kv.2)
      else req.response_format
    seed := if kv.1 = "seed" then optOr req.seed (decodeI64 kv.2) else req.seed
    stop := if kv.1 = "stop" then optOr req.stop (decodeStop kv.2) else req.stop
    stream := if kv.1 = "stream" then optOr req.stream (decodeBool kv.2) else req.stream
    stream_options :=
      if kv.1 = "stream_options" then optOr req.stream_options (decodeStreamOptions kv.2)
      else req.stream_options
    temperature :=
      if kv.1 = "temperature" then optOr req.temperature (decodeNum kv.2) else req.temperature
    top_p := if kv.1 = "top_p" then optOr req.top_p (decodeNum kv.2) else req.top_p
    tools := if kv.1 = "tools" then optOr req.tools (decodeTools kv.2) else req.tools
    tool_choice :=
      if kv.1 = "tool_choice" then optOr req.tool_choice (decodeToolChoice kv.2)
      else req.tool_choice
    parallel_tool_calls :=
      if kv.1 = "parallel_tool_calls" then optOr req.parallel_tool_calls (decodeBool kv.2)
      else req.parallel_tool_calls
    user := if kv.1 = "user" then optOr req.user (decodeStr kv.2) else req.user }

/-- Keeping the first component of an option pair. -/
theorem optOr_some {α : Type} (x : α) (b : Option α) : optOr (some x) b = some x := rfl

/-- Falling through to the second component. -/
theorem optOr_none_left {α : Type} (b : Option α) : optOr none b = b := rfl

/-- An absent fallback changes nothing. -/
theorem optOr_none_right {α : Type} (a : Option α) : optOr a none = a := by
  cases a <;> rfl

/-- Associativity of the fallback chain. -/
theorem optOr_assoc {α : Type} (a b c : Option α) :
    optOr (optOr a b) c = optOr a (optOr b c) := by
  cases a <;> rfl

attribute [simp] optOr_some optOr_none_left optOr_none_right

/-- A key absent from a defaults list yields no fallback value. -/
theorem firstDef_of_not_mem {α : Type} (f : String) (dec : Json → Option α)
    (l : List (String × Json)) (h : f ∉ l.map Prod.fst) :
    firstDef f dec l = none := by
  induction l with
  | nil => rfl
  | cons kv rest ih =>
    simp only [List.map_cons, List.mem_cons] at h
    push_neg at h
    simp [firstDef, ih h.2, Ne.symm h.1]

/-- With pairwise-distinct keys, the fallback for a listed pair is exactly its
deserialised value. -/
theorem firstDef_of_mem_nodup {α : Type} (f : String) (dec : Json → Option α)
    (v : Json) (l : List (String × Json)) (hmem : (f, v) ∈ l)
    (hnd : (l.map Prod.fst).Nodup) : firstDef f dec l = dec v := by
  induction l with
  | nil => cases hmem
  | cons kv rest ih =>
    simp only [List.map_cons, List.nodup_cons] at hnd
    rcases List.mem_cons.mp hmem with h | h
    · subst h
      simp [firstDef, firstDef_of_not_mem _ dec _ hnd.1]
    · have hne : kv.1 ≠ f := by
        intro he
        exact hnd.1 (he ▸ (List.mem_map.mpr ⟨(f, v), h, rfl⟩))
      simp [firstDef, hne, ih h hnd.2]

/-- The source-shaped iteration equals its field-parallel rendering. -/
theorem applyDefault_eq_parallel (req : CreateChatCompletionRequest) (kv : String × Json) :
    applyDefault req kv = applyDefaultP req kv := by
  rcases kv with ⟨k, v⟩
  by_cases h1 : k = "frequency_penalty"
  · subst h1; rfl
  by_cases h2 : k = "logit_bias"
  · subst h2; rfl
  by_cases h3 : k = "logprobs"
  · subst h3; rfl
  by_cases h4 : k = "top_logprobs"
  · subst h4; rfl
  by_cases h5 : k = "max_completion_tokens"
  · subst h5; rfl
  by_cases h6 : k = "store"
  · subst h6; rfl
  by_cases h7 : k = "metadata"
  · subst h7; rfl
  by_cases h8 : k = "n"
  · subst h8; rfl
  by_cases h9 : k = "presence_penalty"
  · subst h9; rfl
  by_cases h10 : k = "response_format"
  · subst h10; rfl
  by_cases h11 : k = "seed"
  · subst h11; rfl
  by_cases h12 : k = "stop"
  · subst h12; rfl
  by_cases h13 : k = "stream"
  · subst h13; rfl
  by_cases h14 : k = "stream_options"
  · subst h14; rfl
  by_cases h15 : k = "temperature"
  · subst h15; rfl
  by_cases h16 : k = "top_p"
  · subst h16; rfl
  by_cases h17 : k = "tools"
  · subst h17; rfl
  by_cases h18 : k = "tool_choice"
  · subst h18; rfl
  by_cases h19 : k = "parallel_tool_calls"
  · subst h19; rfl
  by_cases h20 : k = "user"
  · subst h20; rfl
  simp only [applyDefault, applyDefaultP, if_neg h1, if_neg h2, if_neg h3, if_neg h4, if_neg h5, if_neg h6, if_neg h7, if_neg h8, if_neg h9, if_neg h10, if_neg h11, if_neg h12, if_neg h13, if_neg h14, if_neg h15, if_neg h16, if_neg h17, if_neg h18, if_neg h19, if_neg h20]

/-- One loop iteration acts on `frequency_penalty` exactly when its key matches. -/
theorem applyDefault_frequency_penalty (req : CreateChatCompletionRequest) (kv : String × Json) :
    (applyDefault req kv).frequency_penalty =
      optOr req.frequency_penalty (if kv.1 = "frequency_penalty" then decodeNum kv.2 else none) := by
  rw [applyDefault_eq_parallel]
  unfold applyDefaultP
  by_cases h : kv.1 = "frequency_penalty" <;> simp [h]

/-- The whole loop leaves in `frequency_penalty` the caller value when set, else the first
deserialisable default bound to its key. -/
theorem foldDefaults_frequency_penalty (l : List (String × Json)) (req : CreateChatCompletionRequest) :
    (l.foldl applyDefault req).frequency_penalty = optOr req.frequency_penalty (firstDef "frequency_penalty" decodeNum l) := by
  induction l generalizing req with
  | nil => simp [firstDef]
  | cons kv rest ih =>
    simp [List.foldl_cons, ih, applyDefault_frequency_penalty, firstDef, optOr_assoc]

/-- One loop iteration acts on `logit_bias` exactly when its key matches. -/
theorem applyDefault_logit_bias (req : CreateChatCompletionRequest) (kv : String × Json) :
    (applyDefault req kv).logit_bias =
      optOr req.logit_bias (if kv.1 = "logit_bias" then decodeObj kv.2 else none) := by
  rw [applyDefault_eq_parallel]
  unfold applyDefaultP
  by_cases h : kv.1 = "logit_bias" <;> simp [h]

/-- The whole loop leaves in `logit_bias` the caller value when set, else the first
deserialisable default bound to its key. -/
theorem foldDefaults_logit_bias (l : List (String × Json)) (req : CreateChatCompletionRequest) :
    (l.foldl applyDefault req).logit_bias = optOr req.logit_bias (firstDef "logit_bias" decodeObj l) := by
  induction l generalizing req with
  | nil => simp [firstDef]
  | cons kv rest ih =>
    simp [List.foldl_cons, ih, applyDefault_logit_bias, firstDef, optOr_assoc]

/-- One loop iteration acts on `logprobs` exactly when its key matches. -/
theorem applyDefault_logprobs (req : CreateChatCompletionRequest) (kv : String × Json) :
    (applyDefault req kv).logprobs =
      optOr req.logprobs (if kv.1 = "logprobs" then decodeBool kv.2 else none) := by
  rw [applyDefault_eq_parallel]
  unfold applyDefaultP
  by_cases h : kv.1 = "logprobs" <;> simp [h]

/-- The whole loop leaves in `logprobs` the caller value when set, else the first
deserialisable default bound to its key. -/
theorem foldDefaults_logprobs (l : List (String × Json)) (req : CreateChatCompletionRequest) :
    (l.foldl applyDefault req).logprobs = optOr req.logprobs (firstDef "logprobs" decodeBool l) := by
  induction l generalizing req with
  | nil => simp [firstDef]
  | cons kv rest ih =>
    simp [List.foldl_cons, ih, applyDefault_logprobs, firstDef, optOr_assoc]

/-- One loop iteration acts on `top_logprobs` exactly when its key matches. -/
theorem applyDefault_top_logprobs (req : CreateChatCompletionRequest) (kv : String × Json) :
    (applyDefault req kv).top_logprobs =
      optOr req.top_logprobs (if kv.1 = "top_logprobs" then decodeU8 kv.2 else none) := by
  rw [applyDefault_eq_parallel]
  unfold applyDefaultP
  by_cases h : kv.1 = "top_logprobs" <;> simp [h]

/-- The whole loop leaves in `top_logprobs` the caller value when set, else the first
deserialisable default bound to its key. -/
theorem foldDefaults_top_logprobs (l : List (String × Json)) (req : CreateChatCompletionRequest) :
    (l.foldl applyDefault req).top_logprobs = optOr req.top_logprobs (firstDef "top_logprobs" decodeU8 l) := by
  induction l generalizing req with
  | nil => simp [firstDef]
  | cons kv rest ih =>
    simp [List.foldl_cons, ih, applyDefault_top_logprobs, firstDef, optOr_assoc]

/-- One loop iteration acts on `max_completion_tokens` exactly when its key matches. -/
theorem applyDefault_max_completion_tokens (req : CreateChatCompletionRequest) (kv : String × Json) :
    (applyDefault req kv).max_completion_tokens =
      optOr req.max_completion_tokens (if kv.1 = "max_completion_tokens" then decodeU32 kv.2 else none) := by
  rw [applyDefault_eq_parallel]
  unfold applyDefaultP
  by_cases h : kv.1 = "max_completion_tokens" <;> simp [h]

/-- The whole loop leaves in `max_completion_tokens` the caller value when set, else the first
deserialisable default bound to its key. -/
theorem foldDefaults_max_completion_tokens (l : List (String × Json)) (req : CreateChatCompletionRequest) :
    (l.foldl applyDefault req).max_completion_tokens = optOr req.max_completion_tokens (firstDef "max_completion_tokens" decodeU32 l) := by
  induction l generalizing req with
  | nil => simp [firstDef]
  | cons kv rest ih =>
    simp [List.foldl_cons, ih, applyDefault_max_completion_tokens, firstDef, optOr_assoc]

/-- One loop iteration acts on `store` exactly when its key matches. -/
theorem applyDefault_store (req : CreateChatCompletionRequest) (kv : String × Json) :
    (applyDefault req kv).store =
      optOr req.store (if kv.1 = "store" then decodeBool kv.2 else none) := by
  rw [applyDefault_eq_parallel]
  unfold applyDefaultP
  by_cases h : kv.1 = "store" <;> simp [h]

/-- The whole loop leaves in `store` the caller value when set, else the first
deserialisable default bound to its key. -/
theorem foldDefaults_store (l : List (String × Json)) (req : CreateChatCompletionRequest) :
    (l.foldl applyDefault req).store = optOr req.store (firstDef "store" decodeBool l) := by
  induction l generalizing req with
  | nil => simp [firstDef]
  | cons kv rest ih =>
    simp [List.foldl_cons, ih, applyDefault_store, firstDef, optOr_assoc]

/-- One loop iteration acts on `metadata` exactly when its key matches. -/
theorem applyDefault_metadata (req : CreateChatCompletionRequest) (kv : String × Json) :
    (applyDefault req kv).metadata =
      optOr req.metadata (if kv.1 = "metadata" then decodeAny kv.2 else none) := by
  rw [applyDefault_eq_parallel]
  unfold applyDefaultP
  by_cases h : kv.1 = "metadata" <;> simp [h]

/-- The whole loop leaves in `metadata` the caller value when set, else the first
deserialisable default bound to its key. -/
theorem foldDefaults_metadata (l : List (String × Json)) (req : CreateChatCompletionRequest) :
    (l.foldl applyDefault req).metadata = optOr req.metadata (firstDef "metadata" decodeAny l) := by
  induction l generalizing req with
  | nil => simp [firstDef]
  | cons kv rest ih =>
    simp [List.foldl_cons, ih, applyDefault_metadata, firstDef, optOr_assoc]

/-- One loop iteration acts on `n` exactly when its key matches. -/
theorem applyDefault_n (req : CreateChatCompletionRequest) (kv : String × Json) :
    (applyDefault req kv).n =
      optOr req.n (if kv.1 = "n" then decodeU8 kv.2 else none) := by
  rw [applyDefault_eq_parallel]
  unfold applyDefaultP
  by_cases h : kv.1 = "n" <;> simp [h]

/-- The whole loop leaves in `n` the caller value when set, else the first
deserialisable default bound to its key. -/
theorem foldDefaults_n (l : List (String × Json)) (req : CreateChatCompletionRequest) :
    (l.foldl applyDefault req).n = optOr req.n (firstDef "n" decodeU8 l) := by
  induction l generalizing req with
  | nil => simp [firstDef]
  | cons kv rest ih =>
    simp [List.foldl_cons, ih, applyDefault_n, firstDef, optOr_assoc]

/-- One loop iteration acts on `presence_penalty` exactly when its key matches. -/
theorem applyDefault_presence_penalty (req : CreateChatCompletionRequest) (kv : String × Json) :
    (applyDefault req kv).presence_penalty =
      optOr req.presence_penalty (if kv.1 = "presence_penalty" then decodeNum kv.2 else none) := by
  rw [applyDefault_eq_parallel]
  unfold applyDefaultP
  by_cases h : kv.1 = "presence_penalty" <;> simp [h]

/-- The whole loop leaves in `presence_penalty` the caller value when set, else the first
deserialisable default bound to its key. -/
theorem foldDefaults_presence_penalty (l : List (String × Json)) (req : CreateChatCompletionRequest) :
    (l.foldl applyDefault req).presence_penalty = optOr req.presence_penalty (firstDef "presence_penalty" decodeNum l) := by
  induction l generalizing req with
  | nil => simp [firstDef]
  | cons kv rest ih =>
    simp [List.foldl_cons, ih, applyDefault_presence_penalty, firstDef, optOr_assoc]

/-- One loop iteration acts on `response_format` exactly when its key matches. -/
theorem applyDefault_response_format (req : CreateChatCompletionRequest) (kv : String × Json) :
    (applyDefault req kv).response_format =
      optOr req.response_format (if kv.1 = "response_format" then decodeResponseFormat kv.2 else none) := by
  rw [applyDefault_eq_parallel]
  unfold applyDefaultP
  by_cases h : kv.1 = "response_format" <;> simp [h]

/-- The whole loop leaves in `response_format` the caller value when set, else the first
deserialisable default bound to its key. -/
theorem foldDefaults_response_format (l : List (String × Json)) (req : CreateChatCompletionRequest) :
    (l.foldl applyDefault req).response_format = optOr req.response_format (firstDef "response_format" decodeResponseFormat l) := by
  induction l generalizing req with
  | nil => simp [firstDef]
  | cons kv rest ih =>
    simp [List.foldl_cons, ih, applyDefault_response_format, firstDef, optOr_assoc]

/-- One loop iteration acts on `seed` exactly when its key matches. -/
theorem applyDefault_seed (req : CreateChatCompletionRequest) (kv : String × Json) :
    (applyDefault req kv).seed =
      optOr req.seed (if kv.1 = "seed" then decodeI64 kv.2 else none) := by
  rw [applyDefault_eq_parallel]
  unfold applyDefaultP
  by_cases h : kv.1 = "seed" <;> simp [h]

/-- The whole loop leaves in `seed` the caller value when set, else the first
deserialisable default bound to its key. -/
theorem foldDefaults_seed (l : List (String × Json)) (req : CreateChatCompletionRequest) :
    (l.foldl applyDefault req).seed = optOr req.seed (firstDef "seed" decodeI64 l) := by
  induction l generalizing req with
  | nil => simp [firstDef]
  | cons kv rest ih =>
    simp [List.foldl_cons, ih, applyDefault_seed, firstDef, optOr_assoc]

/-- One loop iteration acts on `stop` exactly when its key matches. -/
theorem applyDefault_stop (req : CreateChatCompletionRequest) (kv : String × Json) :
    (applyDefault req kv).stop =
      optOr req.stop (if kv.1 = "stop" then decodeStop kv.2 else none) := by
  rw [applyDefault_eq_parallel]
  unfold applyDefaultP
  by_cases h : kv.1 = "stop" <;> simp [h]

/-- The whole loop leaves in `stop` the caller value when set, else the first
deserialisable default bound to its key. -/
theorem foldDefaults_stop (l : List (String × Json)) (req : CreateChatCompletionRequest) :
    (l.foldl applyDefault req).stop = optOr req.stop (firstDef "stop" decodeStop l) := by
  induction l generalizing req with
  | nil => simp [firstDef]
  | cons kv rest ih =>
    simp [List.foldl_cons, ih, applyDefault_stop, firstDef, optOr_assoc]

/-- One loop iteration acts on `stream` exactly when its key matches. -/
theorem applyDefault_stream (req : CreateChatCompletionRequest) (kv : String × Json) :
    (applyDefault req kv).stream =
      optOr req.stream (if kv.1 = "stream" then decodeBool kv.2 else none) := by
  rw [applyDefault_eq_parallel]
  unfold applyDefaultP
  by_cases h : kv.1 = "stream" <;> simp [h]

/-- The whole loop leaves in `stream` the caller value when set, else the first
deserialisable default bound to its key. -/
theorem foldDefaults_stream (l : List (String × Json)) (req : CreateChatCompletionRequest) :
    (l.foldl applyDefault req).stream = optOr req.stream (firstDef "stream" decodeBool l) := by
  induction l generalizing req with
  | nil => simp [firstDef]
  | cons kv rest ih =>
    simp [List.foldl_cons, ih, applyDefault_stream, firstDef, optOr_assoc]

/-- One loop iteration acts on `stream_options` exactly when its key matches. -/
theorem applyDefault_stream_options (req : CreateChatCompletionRequest) (kv : String × Json) :
    (applyDefault req kv).stream_options =
      optOr req.stream_options (if kv.1 = "stream_options" then decodeStreamOptions kv.2 else none) := by
  rw [applyDefault_eq_parallel]
  unfold applyDefaultP
  by_cases h : kv.1 = "stream_options" <;> simp [h]

/-- The whole loop leaves in `stream_options` the caller value when set, else the first
deserialisable default bound to its key. -/
theorem foldDefaults_stream_options (l : List (String × Json)) (req : CreateChatCompletionRequest) :
    (l.foldl applyDefault req).stream_options = optOr req.stream_options (firstDef "stream_options" decodeStreamOptions l) := by
  induction l generalizing req with
  | nil => simp [firstDef]
  | cons kv rest ih =>
    simp [List.foldl_cons, ih, applyDefault_stream_options, firstDef, optOr_assoc]

/-- One loop iteration acts on `temperature` exactly when its key matches. -/
theorem applyDefault_temperature (req : CreateChatCompletionRequest) (kv : String × Json) :
    (applyDefault req kv).temperature =
      optOr req.temperature (if kv.1 = "temperature" then decodeNum kv.2 else none) := by
  rw [applyDefault_eq_parallel]
  unfold applyDefaultP
  by_cases h : kv.1 = "temperature" <;> simp [h]

/-- The whole loop leaves in `temperature` the caller value when set, else the first
deserialisable default bound to its key. -/
theorem foldDefaults_temperature (l : List (String × Json)) (req : CreateChatCompletionRequest) :
    (l.foldl applyDefault req).temperature = optOr req.temperature (firstDef "temperature" decodeNum l) := by
  induction l generalizing req with
  | nil => simp [firstDef]
  | cons kv rest ih =>
    simp [List.foldl_cons, ih, applyDefault_temperature, firstDef, optOr_assoc]

/-- One loop iteration acts on `top_p` exactly when its key matches. -/
theorem applyDefault_top_p (req : CreateChatCompletionRequest) (kv : String × Json) :
    (applyDefault req kv).top_p =
      optOr req.top_p (if kv.1 = "top_p" then decodeNum kv.2 else none) := by
  rw [applyDefault_eq_parallel]
  unfold applyDefaultP
  by_cases h : kv.1 = "top_p" <;> simp [h]

/-- The whole loop leaves in `top_p` the caller value when set, else the first
deserialisable default bound to its key. -/
theorem foldDefaults_top_p (l : List (String × Json)) (req : CreateChatCompletionRequest) :
    (l.foldl applyDefault req).top_p = optOr req.top_p (firstDef "top_p" decodeNum l) := by
  induction l generalizing req with
  | nil => simp [firstDef]
  | cons kv rest ih =>
    simp [List.foldl_cons, ih, applyDefault_top_p, firstDef, optOr_assoc]

/-- One loop iteration acts on `tools` exactly when its key matches. -/
theorem applyDefault_tools (req : CreateChatCompletionRequest) (kv : String × Json) :
    (applyDefault req kv).tools =
      optOr req.tools (if kv.1 = "tools" then decodeTools kv.2 else none) := by
  rw [applyDefault_eq_parallel]
  unfold applyDefaultP
  by_cases h : kv.1 = "tools" <;> simp [h]

/-- The whole loop leaves in `tools` the caller value when set, else the first
deserialisable default bound to its key. -/
theorem foldDefaults_tools (l : List (String × Json)) (req : CreateChatCompletionRequest) :
    (l.foldl applyDefault req).tools = optOr req.tools (firstDef "tools" decodeTools l) := by
  induction l generalizing req with
  | nil => simp [firstDef]
  | cons kv rest ih =>
    simp [List.foldl_cons, ih, applyDefault_tools, firstDef, optOr_assoc]

/-- One loop iteration acts on `tool_choice` exactly when its key matches. -/
theorem applyDefault_tool_choice (req : CreateChatCompletionRequest) (kv : String × Json) :
    (applyDefault req kv).tool_choice =
      optOr req.tool_choice (if kv.1 = "tool_choice" then decodeToolChoice kv.2 else none) := by
  rw [applyDefault_eq_parallel]
  unfold applyDefaultP
  by_cases h : kv.1 = "tool_choice" <;> simp [h]

/-- The whole loop leaves in `tool_choice` the caller value when set, else the first
deserialisable default bound to its key. -/
theorem foldDefaults_tool_choice (l : List (String × Json)) (req : CreateChatCompletionRequest) :
    (l.foldl applyDefault req).tool_choice = optOr req.tool_choice (firstDef "tool_choice" decodeToolChoice l) := by
  induction l generalizing req with
  | nil => simp [firstDef]
  | cons kv rest ih =>
    simp [List.foldl_cons, ih, applyDefault_tool_choice, firstDef, optOr_assoc]

/-- One loop iteration acts on `parallel_tool_calls` exactly when its key matches. -/
theorem applyDefault_parallel_tool_calls (req : CreateChatCompletionRequest) (kv : String × Json) :
    (applyDefault req kv).parallel_tool_calls =
      optOr req.parallel_tool_calls (if kv.1 = "parallel_tool_calls" then decodeBool kv.2 else none) := by
  rw [applyDefault_eq_parallel]
  unfold applyDefaultP
  by_cases h : kv.1 = "parallel_tool_calls" <;> simp [h]

/-- The whole loop leaves in `parallel_tool_calls` the caller value when set, else the first
deserialisable default bound to its key. -/
theorem foldDefaults_parallel_tool_calls (l : List (String × Json)) (req : CreateChatCompletionRequest) :
    (l.foldl applyDefault req).parallel_tool_calls = optOr req.parallel_tool_calls (firstDef "parallel_tool_calls" decodeBool l) := by
  induction l generalizing req with
  | nil => simp [firstDef]
  | cons kv rest ih =>
    simp [List.foldl_cons, ih, applyDefault_parallel_tool_calls, firstDef, optOr_assoc]

/-- One loop iteration acts on `user` exactly when its key matches. -/
theorem applyDefault_user (req : CreateChatCompletionRequest) (kv : String × Json) :
    (applyDefault req kv).user =
      optOr req.user (if kv.1 = "user" then decodeStr kv.2 else none) := by
  rw [applyDefault_eq_parallel]
  unfold applyDefaultP
  by_cases h : kv.1 = "user" <;> simp [h]

/-- The whole loop leaves in `user` the caller value when set, else the first
deserialisable default bound to its key. -/
theorem foldDefaults_user (l : List (String × Json)) (req : CreateChatCompletionRequest) :
    (l.foldl applyDefault req).user = optOr req.user (firstDef "user" decodeStr l) := by
  induction l generalizing req with
  | nil => simp [firstDef]
  | cons kv rest ih =>
    simp [List.foldl_cons, ih, applyDefault_user, firstDef, optOr_assoc]

/-- One loop iteration never touches the message list. -/
theorem applyDefault_messages (req : CreateChatCompletionRequest) (kv : String × Json) :
    (applyDefault req kv).messages = req.messages := by
  rw [applyDefault_eq_parallel]; rfl

/-- The whole loop never touches the message list. -/
theorem foldDefaults_messages (l : List (String × Json)) (req : CreateChatCompletionRequest) :
    (l.foldl applyDefault req).messages = req.messages := by
  induction l generalizing req with
  | nil => rfl
  | cons kv rest ih => simp [List.foldl_cons, ih, applyDefault_messages]

/-- One loop iteration never touches the model id field. -/
theorem applyDefault_model (req : CreateChatCompletionRequest) (kv : String × Json) :
    (applyDefault req kv).model = req.model := by
  rw [applyDefault_eq_parallel]; rfl

/-- The whole loop never touches the model id field. -/
theorem foldDefaults_model (l : List (String × Json)) (req : CreateChatCompletionRequest) :
    (l.foldl applyDefault req).model = req.model := by
  induction l generalizing req with
  | nil => rfl
  | cons kv rest ih => simp [List.foldl_cons, ih, applyDefault_model]

/-- The system-prompt step never fails; its pure effect is `sysApply`. -/
theorem with_system_prompt_eq (w : ChatWrapper) (req : CreateChatCompletionRequest) :
    w.with_system_prompt req = .ok (sysApply w req) := by
  unfold ChatWrapper.with_system_prompt sysApply
  cases w.system_prompt <;> rfl

/-- The preparation pipeline never fails; its pure effect is `preparePure`. -/
theorem prepare_req_eq (w : ChatWrapper) (req : CreateChatCompletionRequest) :
    w.prepare_req req = .ok (preparePure w req) := by
  unfold ChatWrapper.prepare_req preparePure
  rw [with_system_prompt_eq]

/-- System-prompt injection does not touch the stream flag. -/
theorem sysApply_stream (w : ChatWrapper) (req : CreateChatCompletionRequest) :
    (sysApply w req).stream = req.stream := by
  unfold sysApply
  cases w.system_prompt <;> rfl

/-- Streaming-usage enforcement does not touch the message list. -/
theorem with_stream_usage_messages (req : CreateChatCompletionRequest) :
    (with_stream_usage req).messages = req.messages := by
  unfold with_stream_usage
  split_ifs <;> rfl

/-- Streaming-usage enforcement does not touch the stream flag. -/
theorem with_stream_usage_stream (req : CreateChatCompletionRequest) :
    (with_stream_usage req).stream = req.stream := by
  unfold with_stream_usage
  split_ifs <;> rfl

/-- On a streaming request, enforcement leaves exactly the forced options
value (the options structure has the single field `include_usage`, so merging
into it and creating it coincide on the result). -/
theorem with_stream_usage_of_stream (req : CreateChatCompletionRequest)
    (h : req.stream = some true) :
    (with_stream_usage req).stream_options = some { include_usage := true } := by
  unfold with_stream_usage
  rw [if_pos h]
  cases ho : req.stream_options with
  | none => simp [ho]
  | some opts => cases opts; simp [ho]

/-- The prepared request's message list: the configured system prompt,
prepended to the untouched caller messages. -/
theorem preparePure_messages (w : ChatWrapper) (req : CreateChatCompletionRequest) :
    (preparePure w req).messages = (sysApply w req).messages := by
  unfold preparePure ChatWrapper.with_model_defaults
  rw [with_stream_usage_messages, foldDefaults_messages]

/-- C2: for every request prepared by a decorator with a configured system
prompt, the prepared message list is exactly the system-role message holding
that prompt followed by all original messages (position 0, original relative
order shifted down by one, nothing replaced or merged); with no configured
prompt the message list is unchanged. -/
theorem prepare_req_system_prompt_injection (w : ChatWrapper)
    (req r : CreateChatCompletionRequest) (h : w.prepare_req req = .ok r) :
    (∀ prompt, w.system_prompt = some prompt →
      r.messages = ChatCompletionRequestMessage.system prompt :: req.messages) ∧
    (w.system_prompt = none → r.messages = req.messages) := by
  rw [prepare_req_eq] at h
  injection h with h
  subst h
  rw [preparePure_messages]
  constructor
  · intro prompt hp
    simp [sysApply, hp]
  · intro hp
    simp [sysApply, hp]

/-- Witness for C2: the spec's scenario (prompt "You are helpful", one user
message) prepared into a two-message list with the prompt at position 0. -/
theorem prepare_req_system_prompt_injection_witness :
    ({ public_name := "pub", system_prompt := some "You are helpful",
       defaults := [] } : ChatWrapper).prepare_req
        { messages := [.user "hi"], model := "m" } =
      .ok { messages := [.system "You are helpful", .user "hi"], model := "m" } ∧
    ({ messages := [.system "You are helpful", .user "hi"], model := "m" } :
        CreateChatCompletionRequest).messages =
      [.system "You are helpful", .user "hi"] := by
  constructor
  · rfl
  · exact (prepare_req_system_prompt_injection
      { public_name := "pub", system_prompt := some "You are helpful", defaults := [] }
      { messages := [.user "hi"], model := "m" }
      { messages := [.system "You are helpful", .user "hi"], model := "m" }
      rfl).1 "You are helpful" rfl

/-- C4: after the full pipeline the stream flag is the caller's value,
backfilled from the first deserialisable `stream` default when unset; and
whenever the prepared request streams, the prepared stream options are
exactly the forced usage-accounting value, regardless of any caller-supplied
stream options (enforcement runs last, after injection and backfill). -/
theorem prepare_req_stream_usage_enforced (w : ChatWrapper)
    (req r : CreateChatCompletionRequest) (h : w.prepare_req req = .ok r) :
    r.stream = optOr req.stream (firstDef "stream" decodeBool w.defaults) ∧
    (r.stream = some true →
      r.stream_options = some { include_usage := true }) := by
  rw [prepare_req_eq] at h
  injection h with h
  subst h
  have hstream : (preparePure w req).stream =
      optOr req.stream (firstDef "stream" decodeBool w.defaults) := by
    unfold preparePure ChatWrapper.with_model_defaults
    rw [with_stream_usage_stream, foldDefaults_stream, sysApply_stream]
  refine ⟨hstream, ?_⟩
  intro ht
  unfold preparePure at ht ⊢
  exact with_stream_usage_of_stream _ (by rw [← with_stream_usage_stream]; exact ht)

/-- Witness for C4: the caller leaves `stream` unset and supplies
`include_usage = false`; a default turns streaming on and enforcement still
forces `include_usage = true`. -/
theorem prepare_req_stream_usage_enforced_witness :
    ({ public_name := "pub", system_prompt := none,
       defaults := [("stream", Json.bool true)] } : ChatWrapper).prepare_req
        { messages := [.user "hi"], model := "m",
          stream_options := some { include_usage := false } } =
      .ok { messages := [.user "hi"], model := "m", stream := some true,
            stream_options := some { include_usage := true } } ∧
    ({ messages := [.user "hi"], model := "m", stream := some true,
       stream_options := some { include_usage := true } } :
        CreateChatCompletionRequest).stream_options =
      some { include_usage := true } := by
  constructor
  · rfl
  · exact (prepare_req_stream_usage_enforced
      { public_name := "pub", system_prompt := none,
        defaults := [("stream", Json.bool true)] }
      { messages := [.user "hi"], model := "m",
        stream_options := some { include_usage := false } }
      { messages := [.user "hi"], model := "m", stream := some true,
        stream_options := some { include_usage := true } }
      rfl).2 rfl

/-- A pair with an unrecognised key leaves the request untouched (the
trace-and-ignore arm). -/
theorem applyDefault_unrecognized (req : CreateChatCompletionRequest)
    (kv : String × Json) (h : kv.1 ∉ recognizedDefaultKeys) :
    applyDefault req kv = req := by
  rw [applyDefault_eq_parallel]
  simp only [recognizedDefaultKeys, List.mem_cons, List.not_mem_nil, or_false, not_or] at h
  obtain ⟨h1, h2, h3, h4, h5, h6, h7, h8, h9, h10,
    h11, h12, h13, h14, h15, h16, h17, h18, h19, h20⟩ := h
  unfold applyDefaultP
  simp only [if_neg h1, if_neg h2, if_neg h3, if_neg h4, if_neg h5, if_neg h6, if_neg h7,
    if_neg h8, if_neg h9, if_neg h10, if_neg h11, if_neg h12, if_neg h13, if_neg h14,
    if_neg h15, if_neg h16, if_neg h17, if_neg h18, if_neg h19, if_neg h20]

/-- Dropping every pair bound to one unrecognised key does not change the
loop's result. -/
theorem foldDefaults_drop_unrecognized (k : String) (h : k ∉ recognizedDefaultKeys)
    (l : List (String × Json)) (req : CreateChatCompletionRequest) :
    l.foldl applyDefault req =
      (l.filter (fun kv => !(kv.1 == k))).foldl applyDefault req := by
  induction l generalizing req with
  | nil => rfl
  | cons kv rest ih =>
    by_cases hk : kv.1 = k
    · have : applyDefault req kv = req := applyDefault_unrecognized req kv (hk ▸ h)
      simp [List.foldl_cons, List.filter_cons, hk, this, ih]
    · simp [List.foldl_cons, List.filter_cons, hk, ih]

/-- C3: for every request and every pair of the defaults list (keys assumed
distinct, one fallback per field as the data model prescribes), a recognised
pair leaves its field equal to the caller's value when the caller set it and
to the deserialised default when unset; and a pair with an unrecognised name
is ignored without error (removing it does not change the result). -/
theorem with_model_defaults_backfill (w : ChatWrapper)
    (req : CreateChatCompletionRequest) (k : String) (v : Json)
    (hnd : (w.defaults.map Prod.fst).Nodup) (hmem : (k, v) ∈ w.defaults) :
    defaultBackfilled k v req (w.with_model_defaults req) ∧
    (k ∉ recognizedDefaultKeys →
      w.with_model_defaults req =
        ChatWrapper.with_model_defaults
          { w with defaults := w.defaults.filter (fun kv => !(kv.1 == k)) } req) := by
  constructor
  · unfold ChatWrapper.with_model_defaults
    by_cases h1 : k = "frequency_penalty"
    · subst h1
      simp only [defaultBackfilled, if_pos rfl, String.reduceEq, if_false, if_true]
      rw [foldDefaults_frequency_penalty, firstDef_of_mem_nodup _ _ _ _ hmem hnd]
    by_cases h2 : k = "logit_bias"
    · subst h2
      simp only [defaultBackfilled, if_pos rfl, String.reduceEq, if_false, if_true]
      rw [foldDefaults_logit_bias, firstDef_of_mem_nodup _ _ _ _ hmem hnd]
    by_cases h3 : k = "logprobs"
    · subst h3
      simp only [defaultBackfilled, if_pos rfl, String.reduceEq, if_false, if_true]
      rw [foldDefaults_logprobs, firstDef_of_mem_nodup _ _ _ _ hmem hnd]
    by_cases h4 : k = "top_logprobs"
    · subst h4
      simp only [defaultBackfilled, if_pos rfl, String.reduceEq, if_false, if_true]
      rw [foldDefaults_top_logprobs, firstDef_of_mem_nodup _ _ _ _ hmem hnd]
    by_cases h5 : k = "max_completion_tokens"
    · subst h5
      simp only [defaultBackfilled, if_pos rfl, String.reduceEq, if_false, if_true]
      rw [foldDefaults_max_completion_tokens, firstDef_of_mem_nodup _ _ _ _ hmem hnd]
    by_cases h6 : k = "store"
    · subst h6
      simp only [defaultBackfilled, if_pos rfl, String.reduceEq, if_false, if_true]
      rw [foldDefaults_store, firstDef_of_mem_nodup _ _ _ _ hmem hnd]
    by_cases h7 : k = "metadata"
    · subst h7
      simp only [defaultBackfilled, if_pos rfl, String.reduceEq, if_false, if_true]
      rw [foldDefaults_metadata, firstDef_of_mem_nodup _ _ _ _ hmem hnd]
    by_cases h8 : k = "n"
    · subst h8
      simp only [defaultBackfilled, if_pos rfl, String.reduceEq, if_false, if_true]
      rw [foldDefaults_n, firstDef_of_mem_nodup _ _ _ _ hmem hnd]
    by_cases h9 : k = "presence_penalty"
    · subst h9
      simp only [defaultBackfilled, if_pos rfl, String.reduceEq, if_false, if_true]
      rw [foldDefaults_presence_penalty, firstDef_of_mem_nodup _ _ _ _ hmem hnd]
    by_cases h10 : k = "response_format"
    · subst h10
      simp only [defaultBackfilled, if_pos rfl, String.reduceEq, if_false, if_true]
      rw [foldDefaults_response_format, firstDef_of_mem_nodup _ _ _ _ hmem hnd]
    by_cases h11 : k = "seed"
    · subst h11
      simp only [defaultBackfilled, if_pos rfl, String.reduceEq, if_false, if_true]
      rw [foldDefaults_seed, firstDef_of_mem_nodup _ _ _ _ hmem hnd]
    by_cases h12 : k = "stop"
    · subst h12
      simp only [defaultBackfilled, if_pos rfl, String.reduceEq, if_false, if_true]
      rw [foldDefaults_stop, firstDef_of_mem_nodup _ _ _ _ hmem hnd]
    by_cases h13 : k = "stream"
    · subst h13
      simp only [defaultBackfilled, if_pos rfl, String.reduceEq, if_false, if_true]
      rw [foldDefaults_stream, firstDef_of_mem_nodup _ _ _ _ hmem hnd]
    by_cases h14 : k = "stream_options"
    · subst h14
      simp only [defaultBackfilled, if_pos rfl, String.reduceEq, if_false, if_true]
      rw [foldDefaults_stream_options, firstDef_of_mem_nodup _ _ _ _ hmem hnd]
    by_cases h15 : k = "temperature"
    · subst h15
      simp only [defaultBackfilled, if_pos rfl, String.reduceEq, if_false, if_true]
      rw [foldDefaults_temperature, firstDef_of_mem_nodup _ _ _ _ hmem hnd]
    by_cases h16 : k = "top_p"
    · subst h16
      simp only [defaultBackfilled, if_pos rfl, String.reduceEq, if_false, if_true]
      rw [foldDefaults_top_p, firstDef_of_mem_nodup _ _ _ _ hmem hnd]
    by_cases h17 : k = "tools"
    · subst h17
      simp only [defaultBackfilled, if_pos rfl, String.reduceEq, if_false, if_true]
      rw [foldDefaults_tools, firstDef_of_mem_nodup _ _ _ _ hmem hnd]
    by_cases h18 : k = "tool_choice"
    · subst h18
      simp only [defaultBackfilled, if_pos rfl, String.reduceEq, if_false, if_true]
      rw [foldDefaults_tool_choice, firstDef_of_mem_nodup _ _ _ _ hmem hnd]
    by_cases h19 : k = "parallel_tool_calls"
    · subst h19
      simp only [defaultBackfilled, if_pos rfl, String.reduceEq, if_false, if_true]
      rw [foldDefaults_parallel_tool_calls, firstDef_of_mem_nodup _ _ _ _ hmem hnd]
    by_cases h20 : k = "user"
    · subst h20
      simp only [defaultBackfilled, if_pos rfl, String.reduceEq, if_false, if_true]
      rw [foldDefaults_user, firstDef_of_mem_nodup _ _ _ _ hmem hnd]
    simp only [defaultBackfilled, if_neg h1, if_neg h2, if_neg h3, if_neg h4,
      if_neg h5, if_neg h6, if_neg h7, if_neg h8, if_neg h9, if_neg h10,
      if_neg h11, if_neg h12, if_neg h13, if_neg h14, if_neg h15, if_neg h16,
      if_neg h17, if_neg h18, if_neg h19, if_neg h20]
  · intro hk
    unfold ChatWrapper.with_model_defaults
    exact foldDefaults_drop_unrecognized k hk w.defaults req

/-- Witness for C3: a `temperature` default of one half fills an unset caller
field. -/
theorem with_model_defaults_backfill_witness :
    defaultBackfilled "temperature" (Json.num (1 / 2))
      { messages := [.user "hi"], model := "m" }
      (ChatWrapper.with_model_defaults
        { public_name := "pub", system_prompt := none,
          defaults := [("temperature", Json.num (1 / 2))] }
        { messages := [.user "hi"], model := "m" }) :=
  (with_model_defaults_backfill
    { public_name := "pub", system_prompt := none,
      defaults := [("temperature", Json.num (1 / 2))] }
    { messages := [.user "hi"], model := "m" }
    "temperature" (Json.num (1 / 2))
    (by simp) (List.mem_singleton.mpr rfl)).1

/-- The metadata log line is never a usage log. -/
theorem metadataEvents_filter_usage (m : Option Json) :
    (metadataEvents m).filter isUsageLogEvent = [] := by
  cases m <;> rfl

/-- The metadata log line is never a metrics record. -/
theorem metadataEvents_filter_metrics (m : Option Json) :
    (metadataEvents m).filter isMetricsEvent = [] := by
  cases m <;> rfl

/-- The model rewrite of a chunk does not change the usage it carries. -/
theorem itemUsage_map_rewrite (pub : String)
    (it : Except OpenAIError CreateChatCompletionStreamResponse) :
    itemUsage (it.map (rewriteChunk pub)) = itemUsage it := by
  cases it <;> rfl

/-- Usage records carried by a stream are unchanged by the model rewrite. -/
theorem filterMap_itemUsage_map_rewrite (pub : String)
    (l : List (Except OpenAIError CreateChatCompletionStreamResponse)) :
    (l.map (fun it => it.map (rewriteChunk pub))).filterMap itemUsage =
      l.filterMap itemUsage := by
  rw [List.filterMap_map]
  congr 1
  funext it
  exact itemUsage_map_rewrite pub it

/-- The usage log lines fired along a stream are exactly one per item
carrying usage, in order. -/
theorem streamEvents_filter_usage (labels : RequestLabels)
    (l : List (Except OpenAIError CreateChatCompletionStreamResponse)) :
    (l.flatMap (streamItemEvents labels)).filter isUsageLogEvent =
      (l.filterMap itemUsage).map TelemetryEvent.usageLog := by
  induction l with
  | nil => rfl
  | cons it rest ih =>
    cases it with
    | ok c =>
      cases hc : c.usage <;>
        simp [streamItemEvents, itemUsage, hc, ih, isUsageLogEvent, isMetricsEvent]
    | error e => simp [streamItemEvents, itemUsage, ih]

/-- The metrics records fired along a stream are exactly one success record
per item carrying usage, in order. -/
theorem streamEvents_filter_metrics (labels : RequestLabels)
    (l : List (Except OpenAIError CreateChatCompletionStreamResponse)) :
    (l.flatMap (streamItemEvents labels)).filter isMetricsEvent =
      (l.filterMap itemUsage).map
        (fun _ => TelemetryEvent.metricsRecord false labels) := by
  induction l with
  | nil => rfl
  | cons it rest ih =>
    cases it with
    | ok c =>
      cases hc : c.usage <;>
        simp [streamItemEvents, itemUsage, hc, ih, isUsageLogEvent, isMetricsEvent]
    | error e => simp [streamItemEvents, itemUsage, ih]

/-- C1: every successfully returned full response and every successfully
forwarded stream chunk reports the decorator's public name in its model
field, whatever the inner adapter reported. -/
theorem chat_public_name_invariant (w : ChatWrapper)
    (innerR : CreateChatCompletionRequest → Except OpenAIError CreateChatCompletionResponse)
    (innerS : CreateChatCompletionRequest →
      Except OpenAIError (List (Except OpenAIError CreateChatCompletionStreamResponse)))
    (req : CreateChatCompletionRequest) :
    (∀ resp, (w.chat_request innerR req).1 = .ok resp → resp.model = w.public_name) ∧
    (∀ out, (w.chat_stream innerS req).1 = .ok out →
      ∀ c, Except.ok c ∈ out → c.model = w.public_name) := by
  constructor
  · intro resp hresp
    simp only [ChatWrapper.chat_request, prepare_req_eq] at hresp
    cases hi : innerR (preparePure w req) with
    | ok r0 =>
      rw [hi] at hresp
      simp only at hresp
      injection hresp with hresp
      rw [← hresp]
    | error e =>
      rw [hi] at hresp
      simp at hresp
  · intro out hout c hc
    simp only [ChatWrapper.chat_stream, prepare_req_eq] at hout
    cases hi : innerS (preparePure w req) with
    | ok items =>
      rw [hi] at hout
      simp only at hout
      injection hout with hout
      rw [← hout] at hc
      obtain ⟨it, hit, hmap⟩ := List.mem_map.mp hc
      cases it with
      | ok c0 =>
        simp only [Except.map] at hmap
        injection hmap with hmap
        rw [← hmap]
        rfl
      | error e => simp [Except.map] at hmap
    | error e =>
      rw [hi] at hout
      simp at hout

/-- Witness for C1: an inner adapter answering under its internal name has
both its full response and its stream chunk renamed to the public name. -/
theorem chat_public_name_invariant_witness :
    (({ public_name := "pub", system_prompt := none, defaults := [] } : ChatWrapper).chat_request
        (fun _ => .ok { model := "internal-id" })
        { messages := [.user "hi"], model := "m" }).1 =
      .ok { model := "pub" } ∧
    ({ model := "pub" } : CreateChatCompletionResponse).model = "pub" ∧
    (({ public_name := "pub", system_prompt := none, defaults := [] } : ChatWrapper).chat_stream
        (fun _ => .ok [.ok { model := "internal-id" }])
        { messages := [.user "hi"], model := "m" }).1 =
      .ok [.ok { model := "pub" }] ∧
    ({ model := "pub" } : CreateChatCompletionStreamResponse).model = "pub" := by
  refine ⟨rfl, ?_, rfl, ?_⟩
  · exact (chat_public_name_invariant
      { public_name := "pub", system_prompt := none, defaults := [] }
      (fun _ => .ok { model := "internal-id" })
      (fun _ => .ok [.ok { model := "internal-id" }])
      { messages := [.user "hi"], model := "m" }).1 { model := "pub" } rfl
  · exact (chat_public_name_invariant
      { public_name := "pub", system_prompt := none, defaults := [] }
      (fun _ => .ok { model := "internal-id" })
      (fun _ => .ok [.ok { model := "internal-id" }])
      { messages := [.user "hi"], model := "m" }).2
      [.ok { model := "pub" }] rfl { model := "pub" } (List.mem_singleton.mpr rfl)

/-- C8: in the streaming path the usage log line and the success metrics
record fire exactly once per forwarded chunk carrying a usage record (and
with the success flag), and a successfully opened stream in which no item
carries usage fires no metrics record at all. -/
theorem chat_stream_usage_metrics (w : ChatWrapper)
    (innerS : CreateChatCompletionRequest →
      Except OpenAIError (List (Except OpenAIError CreateChatCompletionStreamResponse)))
    (req : CreateChatCompletionRequest)
    (items : List (Except OpenAIError CreateChatCompletionStreamResponse))
    (h : innerS (preparePure w req) = .ok items) :
    ((w.chat_stream innerS req).2.filter isUsageLogEvent =
      (items.filterMap itemUsage).map TelemetryEvent.usageLog) ∧
    ((w.chat_stream innerS req).2.filter isMetricsEvent =
      (items.filterMap itemUsage).map
        (fun _ => TelemetryEvent.metricsRecord false (request_labels (preparePure w req)))) ∧
    ((∀ it ∈ items, itemUsage it = none) →
      (w.chat_stream innerS req).2.filter isMetricsEvent = []) := by
  have hev : (w.chat_stream innerS req).2 =
      metadataEvents (preparePure w req).metadata ++
        (items.map (fun it => it.map (rewriteChunk w.public_name))).flatMap
          (streamItemEvents (request_labels (preparePure w req))) := by
    simp only [ChatWrapper.chat_stream, prepare_req_eq, h]
  have hu : (w.chat_stream innerS req).2.filter isUsageLogEvent =
      (items.filterMap itemUsage).map TelemetryEvent.usageLog := by
    rw [hev, List.filter_append, metadataEvents_filter_usage, streamEvents_filter_usage,
      filterMap_itemUsage_map_rewrite, List.nil_append]
  have hm : (w.chat_stream innerS req).2.filter isMetricsEvent =
      (items.filterMap itemUsage).map
        (fun _ => TelemetryEvent.metricsRecord false (request_labels (preparePure w req))) := by
    rw [hev, List.filter_append, metadataEvents_filter_metrics, streamEvents_filter_metrics,
      filterMap_itemUsage_map_rewrite, List.nil_append]
  refine ⟨hu, hm, ?_⟩
  intro hnone
  rw [hm, List.filterMap_eq_nil_iff.mpr hnone, List.map_nil]

/-- Witness for C8: a stream of one usage-carrying chunk, one bare chunk and
one item-level error fires exactly one usage log and one success metric; a
stream with no usage fires no metric. -/
theorem chat_stream_usage_metrics_witness :
    (({ public_name := "pub", system_prompt := none, defaults := [] } : ChatWrapper).chat_stream
        (fun _ => .ok [.ok { model := "i", usage := some ⟨1, 2, 3⟩ },
                       .ok { model := "i" }, .error { msg := "boom" }])
        { messages := [.user "hi"], model := "m" }).2.filter isUsageLogEvent =
      [.usageLog ⟨1, 2, 3⟩] ∧
    (({ public_name := "pub", system_prompt := none, defaults := [] } : ChatWrapper).chat_stream
        (fun _ => .ok [.ok { model := "i", usage := some ⟨1, 2, 3⟩ },
                       .ok { model := "i" }, .error { msg := "boom" }])
        { messages := [.user "hi"], model := "m" }).2.filter isMetricsEvent =
      [.metricsRecord false { model := "m", stream := none }] ∧
    (({ public_name := "pub", system_prompt := none, defaults := [] } : ChatWrapper).chat_stream
        (fun _ => .ok [.ok { model := "i" }])
        { messages := [.user "hi"], model := "m" }).2.filter isMetricsEvent = [] := by
  refine ⟨?_, ?_, ?_⟩
  · exact (chat_stream_usage_metrics
      { public_name := "pub", system_prompt := none, defaults := [] }
      (fun _ => .ok [.ok { model := "i", usage := some ⟨1, 2, 3⟩ },
                     .ok { model := "i" }, .error { msg := "boom" }])
      { messages := [.user "hi"], model := "m" } _ rfl).1.trans rfl
  · exact (chat_stream_usage_metrics
      { public_name := "pub", system_prompt := none, defaults := [] }
      (fun _ => .ok [.ok { model := "i", usage := some ⟨1, 2, 3⟩ },
                     .ok { model := "i" }, .error { msg := "boom" }])
      { messages := [.user "hi"], model := "m" } _ rfl).2.1.trans rfl
  · exact (chat_stream_usage_metrics
      { public_name := "pub", system_prompt := none, defaults := [] }
      (fun _ => .ok [.ok { model := "i" }])
      { messages := [.user "hi"], model := "m" } _ rfl).2.2
      (by intro it hit; rw [List.mem_singleton.mp hit]; rfl)

/-- C9: when the inner adapter fails a `chat_request`, the wrapper logs the
error, records a failure-flagged metric (and no success metric), and hands
the adapter's error back unchanged. -/
theorem chat_request_error_propagation (w : ChatWrapper)
    (innerR : CreateChatCompletionRequest → Except OpenAIError CreateChatCompletionResponse)
    (req : CreateChatCompletionRequest) (e : OpenAIError)
    (h : innerR (preparePure w req) = .error e) :
    (w.chat_request innerR req).1 = .error e ∧
    TelemetryEvent.errorLog ∈ (w.chat_request innerR req).2 ∧
    TelemetryEvent.metricsRecord true (request_labels (preparePure w req)) ∈
      (w.chat_request innerR req).2 ∧
    (∀ b labels, TelemetryEvent.metricsRecord b labels ∈ (w.chat_request innerR req).2 →
      b = true) := by
  have hcall : w.chat_request innerR req =
      (.error e, metadataEvents (preparePure w req).metadata ++
        [.errorLog, .metricsRecord true (request_labels (preparePure w req))]) := by
    simp only [ChatWrapper.chat_request, prepare_req_eq, h]
  rw [hcall]
  refine ⟨rfl, by simp, by simp, ?_⟩
  intro b labels hb
  cases hm : (preparePure w req).metadata <;>
    simp [metadataEvents, hm] at hb <;>
    exact hb.1

/-- Witness for C9: an inner failure is returned unchanged, with the error
log line and one failure-flagged metric recorded. -/
theorem chat_request_error_propagation_witness :
    (({ public_name := "pub", system_prompt := none, defaults := [] } : ChatWrapper).chat_request
        (fun _ => .error { msg := "boom" })
        { messages := [.user "hi"], model := "m" }).1 =
      .error { msg := "boom" } ∧
    TelemetryEvent.errorLog ∈
      (({ public_name := "pub", system_prompt := none, defaults := [] } : ChatWrapper).chat_request
        (fun _ => .error { msg := "boom" })
        { messages := [.user "hi"], model := "m" }).2 ∧
    TelemetryEvent.metricsRecord true { model := "m", stream := none } ∈
      (({ public_name := "pub", system_prompt := none, defaults := [] } : ChatWrapper).chat_request
        (fun _ => .error { msg := "boom" })
        { messages := [.user "hi"], model := "m" }).2 := by
  refine ⟨?_, ?_, ?_⟩
  · exact (chat_request_error_propagation
      { public_name := "pub", system_prompt := none, defaults := [] }
      (fun _ => .error { msg := "boom" })
      { messages := [.user "hi"], model := "m" } { msg := "boom" } rfl).1
  · exact (chat_request_error_propagation
      { public_name := "pub", system_prompt := none, defaults := [] }
      (fun _ => .error { msg := "boom" })
      { messages := [.user "hi"], model := "m" } { msg := "boom" } rfl).2.1
  · exact (chat_request_error_propagation
      { public_name := "pub", system_prompt := none, defaults := [] }
      (fun _ => .error { msg := "boom" })
      { messages := [.user "hi"], model := "m" } { msg := "boom" } rfl).2.2.1

/-- The missing-id error text names the component. -/
theorem azureMissingIdMsg_mentions (n : String) : mentions (azureMissingIdMsg n) n :=
  ⟨"Azure model '", "' requires a model ID in the format `from:azure:<model_id>`. See https://spiceai.org/docs/components/models/azure for details.", rfl⟩

/-- The missing-endpoint error text names the model id. -/
theorem azureMissingEndpointMsg_mentions (n : String) : mentions (azureMissingEndpointMsg n) n :=
  ⟨"Azure model '", "' requires the 'endpoint' parameter. See https://spiceai.org/docs/components/models/azure for details.", rfl⟩

/-- The both-credentials error text names the model id. -/
theorem azureBothAuthMsg_mentions (n : String) : mentions (azureBothAuthMsg n) n :=
  ⟨"Azure model '", "' allows only one of 'azure_api_key' or 'azure_entra_token'. See https://spiceai.org/docs/components/models/azure for details.", rfl⟩

/-- The no-credentials error text names the model id. -/
theorem azureNoAuthMsg_mentions (n : String) : mentions (azureNoAuthMsg n) n :=
  ⟨"Azure model '", "' requires either 'azure_api_key' or 'azure_entra_token'. See https://spiceai.org/docs/components/models/azure for details.", rfl⟩

/-- Unfolding a lookup over a non-empty association list. -/
theorem getParam_cons (kv : String × String) (rest : Params) (k : String) :
    getParam (kv :: rest) k = if kv.1 = k then some kv.2 else getParam rest k := by
  unfold getParam
  rw [List.find?_cons]
  by_cases h : kv.1 = k
  · rw [if_pos h, beq_iff_eq.mpr h]
    rfl
  · rw [if_neg h, beq_eq_false_iff_ne.mpr h]

/-- Unfolding a removal over a non-empty association list. -/
theorem removeParam_cons (kv : String × String) (rest : Params) (k : String) :
    removeParam (kv :: rest) k =
      if kv.1 = k then removeParam rest k else kv :: removeParam rest k := by
  unfold removeParam
  rw [List.filter_cons]
  by_cases h : kv.1 = k <;> simp [h]

/-- A key's own bindings are gone after removal. -/
theorem getParam_removeParam_self (p : Params) (k : String) :
    getParam (removeParam p k) k = none := by
  induction p with
  | nil => rfl
  | cons kv rest ih =>
    rw [removeParam_cons]
    by_cases h : kv.1 = k
    · rw [if_pos h]
      exact ih
    · rw [if_neg h, getParam_cons, if_neg h]
      exact ih

/-- Other keys are untouched by removal. -/
theorem getParam_removeParam_other (p : Params) (k k2 : String) (h : k2 ≠ k) :
    getParam (removeParam p k) k2 = getParam p k2 := by
  induction p with
  | nil => rfl
  | cons kv rest ih =>
    rw [removeParam_cons]
    by_cases hk : kv.1 = k
    · have hne : ¬ kv.1 = k2 := by
        rw [hk]
        exact fun he => h he.symm
      rw [if_pos hk, ih, getParam_cons, if_neg hne]
    · rw [if_neg hk, getParam_cons, getParam_cons]
      by_cases hk2 : kv.1 = k2
      · rw [if_pos hk2, if_pos hk2]
      · rw [if_neg hk2, if_neg hk2, ih]

/-- When no weights path has the quantised extension, the search finds
nothing. -/
theorem findGgufPath_none_of_all (weights : List String)
    (h : ∀ q ∈ weights, hasGgufExt q = false) : findGgufPath weights = none := by
  induction weights with
  | nil => rfl
  | cons a l ih =>
    have ha : hasGgufExt a = false := h a (List.mem_cons_self a l)
    have hl : ∀ q ∈ l, hasGgufExt q = false := fun q hq => h q (List.mem_cons_of_mem a hq)
    simp [findGgufPath, List.findSome?_cons, ha]
    exact hl

/-- The found quantised path is one of the weights paths and carries the
extension. -/
theorem findGgufPath_spec (weights : List String) (p : String)
    (h : findGgufPath weights = some p) : p ∈ weights ∧ hasGgufExt p = true := by
  induction weights with
  | nil => simp [findGgufPath] at h
  | cons a l ih =>
    cases ha : hasGgufExt a with
    | true =>
      simp [findGgufPath, List.findSome?_cons, ha] at h
      subst h
      exact ⟨List.mem_cons_self a l, ha⟩
    | false =>
      simp [findGgufPath, List.findSome?_cons, ha] at h
      obtain ⟨hmem, hext⟩ := ih h
      exact ⟨List.mem_cons_of_mem a hmem, hext⟩

/-- A fruitless search means no weights path has the extension. -/
theorem findGgufPath_all_of_none (weights : List String)
    (h : findGgufPath weights = none) : ∀ q ∈ weights, hasGgufExt q = false := by
  induction weights with
  | nil => intro q hq; cases hq
  | cons a l ih =>
    intro q hq
    cases ha : hasGgufExt a with
    | true => simp [findGgufPath, List.findSome?_cons, ha] at h
    | false =>
      simp [findGgufPath, List.findSome?_cons, ha] at h
      rcases List.mem_cons.mp hq with hqa | hql
      · rw [hqa]; exact ha
      · exact h q hql

/-- C5: Azure construction fails with `FailedToLoadModel` naming the model
when the model id is missing, when the endpoint is missing, when both or
neither of the api key and the entra token are present, and succeeds exactly
when id and endpoint are present with exactly one credential. -/
theorem azure_construction_validation (model_id : Option String) (name : String)
    (p : Params) :
    (model_id = none →
      azure model_id name p = .error (.FailedToLoadModel (azureMissingIdMsg name)) ∧
      mentions (azureMissingIdMsg name) name) ∧
    (∀ m, model_id = some m →
      (getParam p "endpoint" = none →
        azure model_id name p = .error (.FailedToLoadModel (azureMissingEndpointMsg m)) ∧
        mentions (azureMissingEndpointMsg m) m) ∧
      (∀ ep, getParam p "endpoint" = some ep →
        (∀ k t, getParam p "azure_api_key" = some k →
            getParam p "azure_entra_token" = some t →
          azure model_id name p = .error (.FailedToLoadModel (azureBothAuthMsg m)) ∧
          mentions (azureBothAuthMsg m) m) ∧
        (getParam p "azure_api_key" = none → getParam p "azure_entra_token" = none →
          azure model_id name p = .error (.FailedToLoadModel (azureNoAuthMsg m)) ∧
          mentions (azureNoAuthMsg m) m) ∧
        (∀ k, getParam p "azure_api_key" = some k →
            getParam p "azure_entra_token" = none →
          azure model_id name p = .ok
            { model_name := m, api_base := some ep,
              api_version := getParam p "azure_api_version",
              deployment_name := getParam p "azure_deployment_name",
              entra_token := none, api_key := some k }) ∧
        (∀ t, getParam p "azure_api_key" = none →
            getParam p "azure_entra_token" = some t →
          azure model_id name p = .ok
            { model_name := m, api_base := some ep,
              api_version := getParam p "azure_api_version",
              deployment_name := getParam p "azure_deployment_name",
              entra_token := some t, api_key := none }))) := by
  constructor
  · intro h
    subst h
    exact ⟨rfl, azureMissingIdMsg_mentions name⟩
  · intro m hm
    subst hm
    refine ⟨?_, ?_⟩
    · intro hep
      exact ⟨by simp [azure, hep], azureMissingEndpointMsg_mentions m⟩
    · intro ep hep
      refine ⟨?_, ?_, ?_, ?_⟩
      · intro k t hk ht
        exact ⟨by simp [azure, hep, hk, ht], azureBothAuthMsg_mentions m⟩
      · intro hk ht
        exact ⟨by simp [azure, hep, hk, ht], azureNoAuthMsg_mentions m⟩
      · intro k hk ht
        simp [azure, hep, hk, ht]
      · intro t hk ht
        simp [azure, hep, hk, ht]

/-- Witness for C5: all five outcomes at concrete parameter maps. -/
theorem azure_construction_validation_witness :
    azure none "mymodel" [] = .error (.FailedToLoadModel (azureMissingIdMsg "mymodel")) ∧
    azure (some "gpt4") "mymodel" [] =
      .error (.FailedToLoadModel (azureMissingEndpointMsg "gpt4")) ∧
    azure (some "gpt4") "mymodel"
        [("endpoint", "e"), ("azure_api_key", "k"), ("azure_entra_token", "t")] =
      .error (.FailedToLoadModel (azureBothAuthMsg "gpt4")) ∧
    azure (some "gpt4") "mymodel" [("endpoint", "e")] =
      .error (.FailedToLoadModel (azureNoAuthMsg "gpt4")) ∧
    azure (some "gpt4") "mymodel" [("endpoint", "e"), ("azure_api_key", "k")] =
      .ok { model_name := "gpt4", api_base := some "e", api_version := none,
            deployment_name := none, entra_token := none, api_key := some "k" } ∧
    azure (some "gpt4") "mymodel" [("endpoint", "e"), ("azure_entra_token", "t")] =
      .ok { model_name := "gpt4", api_base := some "e", api_version := none,
            deployment_name := none, entra_token := some "t", api_key := none } := by
  refine ⟨?_, ?_, ?_, ?_, ?_, ?_⟩
  · exact (azure_construction_validation none "mymodel" [] ).1 rfl |>.1
  · exact ((azure_construction_validation (some "gpt4") "mymodel" []).2 "gpt4" rfl).1 rfl |>.1
  · exact (((azure_construction_validation (some "gpt4") "mymodel"
      [("endpoint", "e"), ("azure_api_key", "k"), ("azure_entra_token", "t")]).2 "gpt4"
      rfl).2 "e" rfl).1 "k" "t" rfl rfl |>.1
  · exact (((azure_construction_validation (some "gpt4") "mymodel"
      [("endpoint", "e")]).2 "gpt4" rfl).2 "e" rfl).2.1 rfl rfl |>.1
  · exact ((((azure_construction_validation (some "gpt4") "mymodel"
      [("endpoint", "e"), ("azure_api_key", "k")]).2 "gpt4" rfl).2 "e" rfl).2.2.1 "k"
      rfl rfl).trans rfl
  · exact ((((azure_construction_validation (some "gpt4") "mymodel"
      [("endpoint", "e"), ("azure_entra_token", "t")]).2 "gpt4" rfl).2 "e" rfl).2.2.2 "t"
      rfl rfl).trans rfl

/-- C6: OpenAI construction returns `InvalidParamError` on the parameter
`openai_temperature` exactly when an override string is supplied that fails
to parse or parses negative; with the override absent or parsed non-negative
the client is built from the remaining parameters. -/
theorem openai_temperature_validation (model_id : Option String) (p : Params) :
    ((∃ msg, openai model_id p = .error (.InvalidParamError "openai_temperature" msg)) ↔
      (∃ s, getParam p "openai_temperature" = some s ∧
        (parseF64 s = none ∨ ∃ t, parseF64 s = some t ∧ parsedIsNeg t = true))) ∧
    (getParam p "openai_temperature" = none →
      openai model_id p = .ok
        { model_id := model_id.getD DEFAULT_LLM_MODEL,
          api_base := getParam p "endpoint", api_key := getParam p "openai_api_key",
          org_id := getParam p "openai_org_id",
          project_id := getParam p "openai_project_id" }) ∧
    (∀ s t, getParam p "openai_temperature" = some s → parseF64 s = some t →
      parsedIsNeg t = false →
      openai model_id p = .ok
        { model_id := model_id.getD DEFAULT_LLM_MODEL,
          api_base := getParam p "endpoint", api_key := getParam p "openai_api_key",
          org_id := getParam p "openai_org_id",
          project_id := getParam p "openai_project_id" }) := by
  refine ⟨⟨?_, ?_⟩, ?_, ?_⟩
  · rintro ⟨msg, hmsg⟩
    cases hp : getParam p "openai_temperature" with
    | none => simp [openai, hp] at hmsg
    | some s =>
      refine ⟨s, rfl, ?_⟩
      cases hf : parseF64 s with
      | none => exact .inl rfl
      | some t =>
        right
        refine ⟨t, rfl, ?_⟩
        cases hneg : parsedIsNeg t with
        | false => simp [openai, hp, hf, hneg] at hmsg
        | true => rfl
  · rintro ⟨s, hs, hf | ⟨t, hf, hneg⟩⟩
    · exact ⟨"Ensure it is a non-negative number.", by simp [openai, hs, hf]⟩
    · exact ⟨"Ensure it is a non-negative number.", by simp [openai, hs, hf, hneg]⟩
  · intro hp
    simp [openai, hp]
  · intro s t hs hf hneg
    simp [openai, hs, hf, hneg]

/-- Witness for C6: the spec's scenarios, temperature "-1" and "abc" fail
with the named parameter, "0.7" and an absent override succeed. -/
theorem openai_temperature_validation_witness :
    (∃ msg, openai (some "gpt") [("openai_temperature", "-1")] =
      .error (.InvalidParamError "openai_temperature" msg)) ∧
    (∃ msg, openai (some "gpt") [("openai_temperature", "abc")] =
      .error (.InvalidParamError "openai_temperature" msg)) ∧
    openai (some "gpt") [("openai_temperature", "0.7")] =
      .ok { model_id := "gpt", api_base := none, api_key := none,
            org_id := none, project_id := none } ∧
    openai (some "gpt") [] =
      .ok { model_id := "gpt", api_base := none, api_key := none,
            org_id := none, project_id := none } := by
  refine ⟨?_, ?_, ?_, ?_⟩
  · exact (openai_temperature_validation (some "gpt")
      [("openai_temperature", "-1")]).1.mpr
      ⟨"-1", rfl, .inr ⟨.finite (mkRat (-1) 1), by decide, by decide⟩⟩
  · exact (openai_temperature_validation (some "gpt")
      [("openai_temperature", "abc")]).1.mpr ⟨"abc", rfl, .inl (by decide)⟩
  · exact ((openai_temperature_validation (some "gpt")
      [("openai_temperature", "0.7")]).2.2 "0.7" (.finite (mkRat 7 10)) rfl
      (by decide) (by decide)).trans rfl
  · exact ((openai_temperature_validation (some "gpt") []).2.1 rfl).trans rfl

/-- C7: HuggingFace construction fails with `FailedToLoadModel` without a
model id; otherwise it routes to the quantised loader with the first weights
path carrying a case-insensitive `gguf` extension (the path passed exactly as
listed), and to the generic hub loader with the model-type hint and token
when no weights path carries that extension. -/
theorem huggingface_routing (model_id : Option String) (component : Model)
    (p : Params) :
    (model_id = none →
      huggingface model_id component p =
        .error (.FailedToLoadModel "No model id for Huggingface model")) ∧
    (∀ id, model_id = some id →
      ((∃ w ∈ component.find_all_file_path .Weights, hasGgufExt w = true) →
        ∃ w, findGgufPath (component.find_all_file_path .Weights) = some w ∧
          w ∈ component.find_all_file_path .Weights ∧ hasGgufExt w = true ∧
          huggingface model_id component p =
            .ok (.gguf id w (getParam p "hf_token"))) ∧
      ((∀ w ∈ component.find_all_file_path .Weights, hasGgufExt w = false) →
        huggingface model_id component p =
          .ok (.hub id (getParam p "model_type") (getParam p "hf_token")))) := by
  constructor
  · intro h
    subst h
    rfl
  · intro id hid
    subst hid
    constructor
    · rintro ⟨w0, hw0, hext⟩
      cases hf : findGgufPath (component.find_all_file_path .Weights) with
      | none => exact absurd hext (by rw [findGgufPath_all_of_none _ hf w0 hw0]; simp)
      | some w =>
        obtain ⟨hmem, hex⟩ := findGgufPath_spec _ _ hf
        exact ⟨w, rfl, hmem, hex, by simp [huggingface, hf]⟩
    · intro hall
      simp [huggingface, findGgufPath_none_of_all _ hall]

/-- Witness for C7: a weights list holding "model.Q4.gguf" routes to the
quantised loader with that exact path; a safetensors-only list routes to the
hub loader; a missing id fails. -/
theorem huggingface_routing_witness :
    huggingface none { name := "hf", files := [] } [] =
      .error (.FailedToLoadModel "No model id for Huggingface model") ∧
    (∃ w, findGgufPath (Model.find_all_file_path
        { name := "hf", files := [(.Weights, "model.Q4.gguf")] } .Weights) = some w ∧
      w ∈ Model.find_all_file_path
        { name := "hf", files := [(.Weights, "model.Q4.gguf")] } .Weights ∧
      hasGgufExt w = true ∧
      huggingface (some "meta/llama") { name := "hf", files := [(.Weights, "model.Q4.gguf")] } [] =
        .ok (.gguf "meta/llama" w none)) ∧
    huggingface (some "meta/llama")
        { name := "hf", files := [(.Weights, "model.safetensors")] } [] =
      .ok (.hub "meta/llama" none none) := by
  refine ⟨?_, ?_, ?_⟩
  · exact (huggingface_routing none { name := "hf", files := [] } []).1 rfl
  · exact ((huggingface_routing (some "meta/llama")
      { name := "hf", files := [(.Weights, "model.Q4.gguf")] } []).2 "meta/llama" rfl).1
      ⟨"model.Q4.gguf", by decide, by decide⟩
  · exact (((huggingface_routing (some "meta/llama")
      { name := "hf", files := [(.Weights, "model.safetensors")] } []).2 "meta/llama"
      rfl).2 (by decide)).trans rfl

/-- C10: a well-formed non-negative temperature override is only validated;
the client built is identical to the one built from the same parameters with
the override removed (the parsed value is never forwarded). -/
theorem openai_temperature_not_forwarded (model_id : Option String) (p : Params)
    (s : String) (t : ParsedF64)
    (hs : getParam p "openai_temperature" = some s)
    (ht : parseF64 s = some t) (hneg : parsedIsNeg t = false) :
    openai model_id p = openai model_id (removeParam p "openai_temperature") := by
  have h1 : getParam (removeParam p "openai_temperature") "endpoint" =
      getParam p "endpoint" := getParam_removeParam_other _ _ _ (by decide)
  have h2 : getParam (removeParam p "openai_temperature") "openai_api_key" =
      getParam p "openai_api_key" := getParam_removeParam_other _ _ _ (by decide)
  have h3 : getParam (removeParam p "openai_temperature") "openai_org_id" =
      getParam p "openai_org_id" := getParam_removeParam_other _ _ _ (by decide)
  have h4 : getParam (removeParam p "openai_temperature") "openai_project_id" =
      getParam p "openai_project_id" := getParam_removeParam_other _ _ _ (by decide)
  have h5 : getParam (removeParam p "openai_temperature") "openai_temperature" = none :=
    getParam_removeParam_self p "openai_temperature"
  simp [openai, hs, ht, hneg, h1, h2, h3, h4, h5]

/-- Witness for C10: with temperature "0.7" present the constructed client
equals the one from the map without it. -/
theorem openai_temperature_not_forwarded_witness :
    getParam [("openai_temperature", "0.7"), ("openai_api_key", "sk")]
      "openai_temperature" = some "0.7" ∧
    parseF64 "0.7" = some (.finite (mkRat 7 10)) ∧
    parsedIsNeg (.finite (mkRat 7 10)) = false ∧
    openai (some "gpt") [("openai_temperature", "0.7"), ("openai_api_key", "sk")] =
      openai (some "gpt")
        (removeParam [("openai_temperature", "0.7"), ("openai_api_key", "sk")]
          "openai_temperature") :=
  ⟨rfl, by decide, by decide,
    openai_temperature_not_forwarded (some "gpt")
      [("openai_temperature", "0.7"), ("openai_api_key", "sk")]
      "0.7" (.finite (mkRat 7 10)) rfl (by decide) (by decide)⟩
